import Mathlib

/-!
Shallow embedding of the scVI repository's VAE core (src/scvi/models/vae_atac.py
and src/scvi/models/vae_cite.py) over an abstract linearly ordered field `R`.

Real-analytic primitives (exp, log, sqrt, lgamma and the constant pi) are
supplied as an explicit record of functions so every definition stays
computable; theorems assume exactly the analytic properties they need
(for example positivity of exp) as hypotheses, and witnesses instantiate the
record at concrete computable functions over the rationals.

Tensors are embedded as lists: a batch is a list of cells, a cell is a list of
feature values.  Randomness (reparameterized sampling) is threaded explicitly
as noise arguments, mirroring the sampling sites of the source.

The network modules (Encoder, Decoder, DecoderSCVI, LinearDecoderSCVI), the
likelihood functions (scvi/models/log_likelihood.py) and the utility one_hot
(scvi/models/utils.py) are imported by the two VAE files but their source is
not part of the repository snapshot; they are modelled from the spec as
indicated on each definition.  Everything inside VAE_ATAC and VAECITE is
translated directly from the two source files.
-/

deriving instance DecidableEq for Except

namespace ScviModel

/-- Record of real-analytic primitive functions over the carrier field.
These stand for torch's exp, log, sqrt, lgamma and the constant pi. -/
structure Prims (R : Type) where
  exp : R → R
  log : R → R
  sqrt : R → R
  lgamma : R → R
  pi : R

variable {R : Type} [LinearOrderedField R]

/-- Dot product of two vectors (zip-truncating, as torch shapes always agree). -/
def dot (v w : List R) : R := (List.zipWith (fun a b => a * b) v w).sum

/-- One linear layer: a weight matrix (list of rows) and a bias vector. -/
structure Linear (R : Type) where
  weight : List (List R)
  bias : List R
deriving DecidableEq

/-- Apply a linear layer to an input vector. -/
def Linear.apply (l : Linear R) (x : List R) : List R :=
  List.zipWith (fun row b => dot row x + b) l.weight l.bias

/-- Rectified linear activation used between hidden layers. -/
def relu (t : R) : R := max t 0

/-- Run a stack of hidden layers with relu activations. -/
def runHidden (ls : List (Linear R)) (x : List R) : List R :=
  ls.foldl (fun a l => (l.apply a).map relu) x

/-- Run a stack of hidden layers, concatenating the one-hot covariate vector
into the input of every layer (batch-aware conditioning, spec section 4.3). -/
def runHiddenCat (ls : List (Linear R)) (cov : List R) (x : List R) : List R :=
  ls.foldl (fun a l => (l.apply (a ++ cov)).map relu) x

/-- Modelled from the spec: one_hot from scvi.models.utils (not under src/):
the one-hot encoding of category `i` among `n` categories. -/
def oneHot (n i : ℕ) : List R :=
  (List.range n).map (fun j => if j = i then (1 : R) else 0)

/-- Covariate vector for a cell: empty when the cardinality is 0 (conditioning
disabled), otherwise the one-hot encoding of the category. -/
def covOf (n i : ℕ) : List R := if n = 0 then [] else oneHot n i

/-- F.linear(one_hot(idx, n), M): selects, per output feature, the idx-th
column of the matrix M (list of rows). -/
def selectCol (M : List (List R)) (oh : List R) : List R :=
  M.map (fun row => dot row oh)

/-- Softmax of a vector of scores using the abstract exp. -/
def softmax (P : Prims R) (v : List R) : List R :=
  let e := v.map P.exp
  e.map (fun t => t / e.sum)

/-- Softplus log(1 + exp t), used by the stable zero-inflated formulas. -/
def softplus (P : Prims R) (t : R) : R := P.log (1 + P.exp t)

/-- Logistic sigmoid 1 / (1 + exp (-t)). -/
def sigmoidF (P : Prims R) (t : R) : R := 1 / (1 + P.exp (-t))

/-- Modelled from the spec: scvi.models.modules.Encoder (not under src/),
spec section 4.2: hidden layers, then a mean head and a variance head whose
output is exponentiated to be strictly positive, plus an optional
log-normal-style output transform flag (distribution "ln"). -/
structure Encoder (R : Type) where
  hidden : List (Linear R)
  meanLayer : Linear R
  varLayer : Linear R
  distribLN : Bool
deriving DecidableEq

/-- Optional output-distribution transform of the encoder: a simplex squashing
(softmax) when the distribution is "ln", identity otherwise. -/
def Encoder.transformation (P : Prims R) (e : Encoder R) (z : List R) : List R :=
  if e.distribLN then softmax P z else z

/-- Run the encoder on one cell: returns the posterior mean, the strictly
positive posterior variance, and one reparameterized sample
mean + noise * sqrt(variance), passed through the output transform. -/
def Encoder.run (P : Prims R) (e : Encoder R) (x noise : List R) :
    List R × List R × List R :=
  let h := runHidden e.hidden x
  let m := e.meanLayer.apply h
  let v := (e.varLayer.apply h).map P.exp
  let zRaw := List.zipWith (fun p n => p.1 + n * P.sqrt p.2) (m.zip v) noise
  (m, v, e.transformation P zRaw)

/-- Modelled from the spec: scvi.models.modules.DecoderSCVI (not under src/),
spec section 4.3: hidden layers with covariate conditioning, a softmax scale
head (simplex over features), the rate scale * exp(library), a dropout-logit
head, and a per-cell dispersion head returned only in gene-cell mode. -/
structure DecoderSCVI (R : Type) where
  hidden : List (Linear R)
  scaleLayer : Linear R
  rLayer : Linear R
  dropoutLayer : Linear R
deriving DecidableEq

/-- Run the scVI decoder on one cell: returns
(px_scale, optional px_r, px_rate, px_dropout). -/
def DecoderSCVI.run (P : Prims R) (d : DecoderSCVI R) (dispersion : String)
    (z : List R) (library : R) (cov : List R) :
    List R × Option (List R) × List R × List R :=
  let h := runHiddenCat d.hidden cov z
  let scale := softmax P (d.scaleLayer.apply h)
  let rate := scale.map (fun t => t * P.exp library)
  let r : Option (List R) :=
    if dispersion = "gene-cell" then some (d.rLayer.apply h) else none
  (scale, r, rate, d.dropoutLayer.apply h)

/-- Modelled from the spec: scvi.models.modules.Decoder (not under src/),
spec sections 4.2-4.3: hidden layers with covariate conditioning, a mean head
and a strictly positive variance head (exponential of a linear output). -/
structure DecoderPlain (R : Type) where
  hidden : List (Linear R)
  meanLayer : Linear R
  varLayer : Linear R
deriving DecidableEq

/-- Run the plain decoder on one cell: returns (mean, variance). -/
def DecoderPlain.run (P : Prims R) (d : DecoderPlain R) (z cov : List R) :
    List R × List R :=
  let h := runHiddenCat d.hidden cov z
  (d.meanLayer.apply h, (d.varLayer.apply h).map P.exp)

/-- Modelled from the spec: scvi.models.modules.LinearDecoderSCVI (not under
src/), spec section 4.3: the linear-decoder variant restricting the
latent-to-scale mapping to a single linear layer (the caller applies softmax);
at its call site in vae_atac.py it returns one tensor of raw scores. -/
structure LinearDecoderSCVI (R : Type) where
  scaleLayer : Linear R
  dropoutLayer : Linear R
deriving DecidableEq

/-- Run the linear decoder on one cell as the vae_atac.py lda call site uses
it: the raw linear scores from the latent and the covariates (the caller
applies softmax). -/
def LinearDecoderSCVI.run (d : LinearDecoderSCVI R) (z cov : List R) : List R :=
  (d.scaleLayer).apply (z ++ cov)

/-- Run the linear decoder on one cell as the vae_cite.py call site uses it:
the same four outputs as DecoderSCVI but with a single linear + softmax scale
head and no dispersion head (so gene-cell dispersion yields None). -/
def LinearDecoderSCVI.run4 (P : Prims R) (d : LinearDecoderSCVI R)
    (z : List R) (library : R) (cov : List R) :
    List R × Option (List R) × List R × List R :=
  let scale := softmax P (d.scaleLayer.apply (z ++ cov))
  (scale, none, scale.map (fun t => t * P.exp library), d.dropoutLayer.apply (z ++ cov))

/-- KL divergence between Normal(m1, s1) and Normal(m2, s2) as computed by
torch.distributions.kl_divergence for two normals (library code, not under
src/): with vr = (s1/s2)^2 and t1 = ((m1-m2)/s2)^2 it returns
(vr + t1 - 1 - log vr) / 2. -/
def klNN (P : Prims R) (m1 s1 m2 s2 : R) : R :=
  let vr := (s1 / s2) ^ 2
  let t1 := ((m1 - m2) / s2) ^ 2
  (vr + t1 - 1 - P.log vr) / 2

/-- Textbook analytic KL divergence between Normal(m1, s1) and Normal(m2, s2):
log(s2/s1) + (s1^2 + (m1-m2)^2) / (2 s2^2) - 1/2.  This is the spec-side
formula; it is proved equal to klNN under the algebraic laws of log. -/
def klNormalSpec (P : Prims R) (m1 s1 m2 s2 : R) : R :=
  P.log (s2 / s1) + (s1 ^ 2 + (m1 - m2) ^ 2) / (2 * s2 ^ 2) - 1 / 2

/-- Modelled from the spec: log_nb_positive from scvi.models.log_likelihood
(not under src/), spec section 4.1: log-gamma-based negative-binomial log-pmf
of one cell given mean mu and inverse-dispersion theta, summed over features. -/
def log_nb_positive (P : Prims R) (x mu theta : List R) : R :=
  (List.zipWith
    (fun xj p =>
      p.2 * (P.log p.2 - P.log (p.2 + p.1)) + xj * (P.log p.1 - P.log (p.2 + p.1))
        + P.lgamma (xj + p.2) - P.lgamma p.2 - P.lgamma (xj + 1))
    x (mu.zip theta)).sum

/-- Modelled from the spec: log_zinb_positive from scvi.models.log_likelihood
(not under src/), spec section 4.1: zero-inflated NB log-pmf of one cell in
the numerically stable softplus form, with mixing weight from the dropout
logit pi_j, summed over features. -/
def log_zinb_positive (P : Prims R) (x mu theta piL : List R) : R :=
  (List.zipWith
    (fun xj p =>
      let mu_j := p.1
      let th := p.2.1
      let pij := p.2.2
      if xj < 1 / 100000000 then
        softplus P (-pij + th * (P.log th - P.log (th + mu_j))) - softplus P (-pij)
      else
        -pij - softplus P (-pij)
          + th * (P.log th - P.log (th + mu_j))
          + xj * (P.log mu_j - P.log (th + mu_j))
          + P.lgamma (xj + th) - P.lgamma th - P.lgamma (xj + 1))
    x (mu.zip (theta.zip piL))).sum

/-- Modelled from the spec: log_beta_bernoulli from scvi.models.log_likelihood
(not under src/), spec section 4.1: beta-bernoulli log-likelihood of one
near-binary cell with per-feature parameters alpha, beta, summed over
features (marginal success probability alpha / (alpha + beta)). -/
def log_beta_bernoulli (P : Prims R) (x alpha beta : List R) : R :=
  (List.zipWith
    (fun xj p =>
      xj * P.log (p.1 / (p.1 + p.2)) + (1 - xj) * P.log (p.2 / (p.1 + p.2)))
    x (alpha.zip beta)).sum

/-- Modelled from the spec: log_zero_inflated_bernoulli from
scvi.models.log_likelihood (not under src/), spec section 4.1: zero-inflated
Bernoulli log-likelihood of one cell with success probability b and dropout
probability a, summed over features. -/
def log_zero_inflated_bernoulli (P : Prims R) (x b a : List R) : R :=
  (List.zipWith
    (fun xj p =>
      P.log ((1 - xj) * (p.2 + (1 - p.2) * (1 - p.1)) + xj * (1 - p.2) * p.1))
    x (b.zip a)).sum

/-- Bernoulli log-likelihood of one cell as written inline in vae_atac.py:
sum over features of log(x * beta + (1 - x) * (1 - beta)). -/
def log_bernoulli (P : Prims R) (x beta : List R) : R :=
  (List.zipWith (fun xj bj => P.log (xj * bj + (1 - xj) * (1 - bj))) x beta).sum

/-- Multinomial log-probability of one cell as computed by
torch.distributions.Multinomial(probs).log_prob (library code, not under
src/): lgamma(n + 1) - sum lgamma(x_j + 1) + sum x_j * log p_j with n the
total count. -/
def log_multinomial (P : Prims R) (x probs : List R) : R :=
  P.lgamma (x.sum + 1) - (x.map (fun xj => P.lgamma (xj + 1))).sum
    + (List.zipWith (fun xj pj => xj * P.log pj) x probs).sum

/-- Poisson log-probability of one cell as computed by
torch.distributions.Poisson(rate).log_prob summed over features (library
code, not under src/): x * log rate - rate - lgamma(x + 1). -/
def log_poisson (P : Prims R) (x rate : List R) : R :=
  (List.zipWith (fun xj rj => xj * P.log rj - rj - P.lgamma (xj + 1)) x rate).sum

/-- Log-normal log-density of one value as computed by
torch.distributions.LogNormal(mu, sigma).log_prob (library code, not under
src/). -/
def log_lognormal_term (P : Prims R) (xj mu sigma : R) : R :=
  -((P.log xj - mu) ^ 2) / (2 * sigma ^ 2) - P.log (xj * sigma * P.sqrt (2 * P.pi))

/-- Log-normal log-density of one cell, summed over features. -/
def log_lognormal (P : Prims R) (x mu sigma : List R) : R :=
  (List.zipWith (fun xj p => log_lognormal_term P xj p.1 p.2) x (mu.zip sigma)).sum

/-- Sequence a list of Except computations (used to run the per-sample decode
of the multi-sample inference path). -/
def seqE {E A : Type} : List (Except E A) → Except E (List A)
  | [] => .ok []
  | e :: t => e.bind (fun a => (seqE t).map (fun l => a :: l))

/-- Stack a list of optional values: some list exactly when every element is
present (used to stack per-sample optional decoder outputs). -/
def stackOpt {A : Type} : List (Option A) → Option (List A)
  | [] => some []
  | some a :: t => (stackOpt t).map (fun l => a :: l)
  | none :: _ => none

/-- Reparameterized sampling of a whole batch: per cell and per dimension,
mean + noise * sqrt(variance).  This is the value computed by
Normal(m, v.sqrt()).sample() at the given noise. -/
def reparamRows (P : Prims R) (m v noise : List (List R)) : List (List R) :=
  List.zipWith
    (fun p nr => List.zipWith (fun q n => q.1 + n * P.sqrt q.2) (p.1.zip p.2) nr)
    (m.zip v) noise

/-- A learned dispersion parameter tensor: a per-feature vector (dispersion
"gene" / "protein") or a feature-by-category matrix (the -batch / -label
modes).  In gene-cell mode no parameter exists. -/
inductive TensorParam (R : Type) where
  | vec : List R → TensorParam R
  | mat : List (List R) → TensorParam R
deriving DecidableEq

/-- The decoder module actually constructed, one of the three module classes
dispatched on in the VAE constructors. -/
inductive DecKind (R : Type) where
  | scvi : DecoderSCVI R → DecKind R
  | linearDec : LinearDecoderSCVI R → DecKind R
  | plain : DecoderPlain R → DecKind R
deriving DecidableEq

/-- The reconstruction-loss names that vae_atac.py groups together when
choosing the decoder class and when skipping the library-size KL term. -/
def bernoulliFamily : List String :=
  ["beta-bernoulli", "zero_inflated_bernoulli", "bernoulli", "multinomial", "lda"]

/-- The model state of VAE_ATAC (src/scvi/models/vae_atac.py): configuration
fields and learned parameters created in __init__ and read by the methods. -/
structure VAE_ATAC (R : Type) where
  dispersion : String
  n_latent : ℕ
  log_variational : Bool
  reconstruction_loss : String
  n_batch : ℕ
  n_labels : ℕ
  l_alpha_prior : Option R
  px_r : Option (TensorParam R)
  z_encoder : Encoder R
  l_encoder : Encoder R
  decoder : DecKind R
deriving DecidableEq

/-- The freshly initialized weights that VAE_ATAC.__init__ would draw
(torch.randn and the submodule constructions); supplied by the caller so the
embedding stays deterministic. -/
structure ATACWeights (R : Type) where
  alpha_init : R
  px_r_vec : List R
  px_r_mat_batch : List (List R)
  px_r_mat_label : List (List R)
  z_enc : Encoder R
  l_enc : Encoder R
  dec_scvi : DecoderSCVI R
  dec_linear : LinearDecoderSCVI R
  dec_plain : DecoderPlain R
deriving DecidableEq

/-- VAE_ATAC.__init__ (vae_atac.py lines 54-142).  The source contains no
raise statement: every configuration string flows through if/elif chains whose
final else branches silently fall through, so construction always succeeds.
The log_alpha_prior argument is an optional number (the source also tests for
a string value, which maps to the None outcome here). -/
def VAE_ATAC.init (n_input n_batch n_labels n_latent : ℕ)
    (dispersion : String) (log_variational : Bool) (reconstruction_loss : String)
    (log_alpha_prior : Option R) (w : ATACWeights R) :
    Except String (VAE_ATAC R) :=
  let _ := n_input
  .ok {
    dispersion := dispersion
    n_latent := n_latent
    log_variational := log_variational
    reconstruction_loss := reconstruction_loss
    n_batch := n_batch
    n_labels := n_labels
    l_alpha_prior :=
      if reconstruction_loss = "lda" then
        match log_alpha_prior with
        | none => some w.alpha_init
        | some a => some a
      else none
    px_r :=
      if dispersion = "gene" then some (.vec w.px_r_vec)
      else if dispersion = "gene-batch" then some (.mat w.px_r_mat_batch)
      else if dispersion = "gene-label" then some (.mat w.px_r_mat_label)
      else none
    z_encoder :=
      if reconstruction_loss = "lda" then { w.z_enc with distribLN := true }
      else { w.z_enc with distribLN := false }
    l_encoder := { w.l_enc with distribLN := false }
    decoder :=
      if reconstruction_loss ∈ bernoulliFamily then
        if reconstruction_loss = "lda" then .linearDec w.dec_linear
        else .plain w.dec_plain
      else .scvi w.dec_scvi }

/-- The encoder-phase outputs of VAE_ATAC.inference: posterior parameters and
reparameterized samples for z and the library latent, one row per cell. -/
structure EncOut (R : Type) where
  qz_m : List (List R)
  qz_v : List (List R)
  z : List (List R)
  ql_m : List (List R)
  ql_v : List (List R)
  library : List (List R)
deriving DecidableEq

/-- The encoding phase of VAE_ATAC.inference (vae_atac.py lines 237-243):
optional log(1 + x) transform, then the z encoder and the library encoder on
every cell, with explicit reparameterization noise. -/
def VAE_ATAC.encode (P : Prims R) (m : VAE_ATAC R) (x zN lN : List (List R)) :
    EncOut R :=
  let x_ := if m.log_variational
    then x.map (fun row => row.map (fun t => P.log (1 + t))) else x
  let zs := List.zipWith (fun xc nc => m.z_encoder.run P xc nc) x_ zN
  let ls := List.zipWith (fun xc nc => m.l_encoder.run P xc nc) x_ lN
  { qz_m := zs.map (fun t => t.1)
    qz_v := zs.map (fun t => t.2.1)
    z := zs.map (fun t => t.2.2)
    ql_m := ls.map (fun t => t.1)
    ql_v := ls.map (fun t => t.2.1)
    library := ls.map (fun t => t.2.2) }

/-- The decode-phase outputs of VAE_ATAC.inference; absent tensors are the
None values the source assigns in the non-matching branches. -/
structure ATACDecodeOut (R : Type) where
  px_scale : Option (List (List R))
  px_r : Option (List (List R))
  px_rate : Option (List (List R))
  px_dropout : Option (List (List R))
  alpha : Option (List (List R))
  beta : Option (List (List R))
deriving DecidableEq

/-- The decoding phase of VAE_ATAC.inference (vae_atac.py lines 253-305):
dispatch on the reconstruction-loss family, run the decoder per cell, then
select and exponentiate the dispersion for the NB/ZINB path.  In that path an
unrecognized dispersion string leaves px_r as the decoder's None, and
torch.exp(None) raises, embedded as an error.  The per-feature "gene"
dispersion vector is broadcast explicitly to every cell. -/
def VAE_ATAC.decode (P : Prims R) (m : VAE_ATAC R) (z library : List (List R))
    (batch_index y : List ℕ) : Except String (ATACDecodeOut R) :=
  if m.reconstruction_loss ∈ bernoulliFamily then
    if m.reconstruction_loss = "beta-bernoulli" then
      match m.decoder with
      | .plain d =>
        let outs := List.zipWith
          (fun zc b => d.run P zc (covOf m.n_batch b)) z batch_index
        .ok { px_scale := none, px_r := none, px_rate := none, px_dropout := none
              alpha := some (outs.map (fun t => t.1.map P.exp))
              beta := some (outs.map (fun t => t.2)) }
      | _ => .error "TypeError: decoder signature mismatch"
    else if m.reconstruction_loss = "bernoulli"
        ∨ m.reconstruction_loss = "zero_inflated_bernoulli" then
      match m.decoder with
      | .plain d =>
        let outs := List.zipWith
          (fun zc b => d.run P zc (covOf m.n_batch b)) z batch_index
        .ok { px_scale := none, px_r := none, px_rate := none, px_dropout := none
              alpha := some (outs.map (fun t => t.1))
              beta := some (outs.map (fun t => t.2.map (fun b => sigmoidF P (P.log b)))) }
      | _ => .error "TypeError: decoder signature mismatch"
    else if m.reconstruction_loss = "lda" then
      match m.decoder with
      | .linearDec d =>
        let outs := List.zipWith
          (fun p b => d.run p.1 (covOf m.n_batch b)) (z.zip library) batch_index
        .ok { px_scale := none, px_r := none, px_rate := none, px_dropout := none
              alpha := some (outs.map (softmax P)), beta := none }
      | _ => .error "TypeError: decoder signature mismatch"
    else
      match m.decoder with
      | .plain d =>
        let outs := List.zipWith
          (fun zc b => d.run P zc (covOf m.n_batch b)) z batch_index
        .ok { px_scale := none, px_r := none, px_rate := none, px_dropout := none
              alpha := some (outs.map (fun t => softmax P t.1))
              beta := some (outs.map (fun t => t.2)) }
      | _ => .error "TypeError: decoder signature mismatch"
  else
    match m.decoder with
    | .scvi d =>
      let outs := List.zipWith
        (fun p b =>
          d.run P m.dispersion p.1 (p.2.headD 0) (covOf m.n_batch b))
        (z.zip library) batch_index
      let rsel : Option (List (List R)) :=
        if m.dispersion = "gene-label" then
          match m.px_r with
          | some (.mat M) => some (y.map (fun yi => selectCol M (oneHot m.n_labels yi)))
          | _ => none
        else if m.dispersion = "gene-batch" then
          match m.px_r with
          | some (.mat M) => some (batch_index.map (fun b => selectCol M (oneHot m.n_batch b)))
          | _ => none
        else if m.dispersion = "gene" then
          match m.px_r with
          | some (.vec v) => some (z.map (fun _ => v))
          | _ => none
        else stackOpt (outs.map (fun t => t.2.1))
      match rsel with
      | none => .error "TypeError: exp expects a tensor, got NoneType"
      | some t =>
        .ok { px_scale := some (outs.map (fun t => t.1))
              px_r := some (t.map (fun row => row.map P.exp))
              px_rate := some (outs.map (fun t => t.2.2.1))
              px_dropout := some (outs.map (fun t => t.2.2.2))
              alpha := none, beta := none }
    | _ => .error "TypeError: decoder signature mismatch"

/-- The full return value of VAE_ATAC.inference (the 12-tuple of
vae_atac.py lines 292-305). -/
structure ATACInferOut (R : Type) where
  px_scale : Option (List (List R))
  px_r : Option (List (List R))
  px_rate : Option (List (List R))
  px_dropout : Option (List (List R))
  alpha : Option (List (List R))
  beta : Option (List (List R))
  qz_m : List (List R)
  qz_v : List (List R)
  z : List (List R)
  ql_m : List (List R)
  ql_v : List (List R)
  library : List (List R)
deriving DecidableEq

/-- VAE_ATAC.inference on the n_samples = 1 path (vae_atac.py lines 236-305
with the n_samples > 1 block skipped): encode, then decode. -/
def VAE_ATAC.inference (P : Prims R) (m : VAE_ATAC R) (x : List (List R))
    (batch_index y : List ℕ) (zN lN : List (List R)) :
    Except String (ATACInferOut R) :=
  let e := m.encode P x zN lN
  (m.decode P e.z e.library batch_index y).map (fun d =>
    { px_scale := d.px_scale, px_r := d.px_r, px_rate := d.px_rate
      px_dropout := d.px_dropout, alpha := d.alpha, beta := d.beta
      qz_m := e.qz_m, qz_v := e.qz_v, z := e.z
      ql_m := e.ql_m, ql_v := e.ql_v, library := e.library })

/-- The return value of VAE_ATAC.inference on the n_samples > 1 path, where
every tensor gains a leading samples dimension. -/
structure ATACInferOut3 (R : Type) where
  px_scale : Option (List (List (List R)))
  px_r : Option (List (List (List R)))
  px_rate : Option (List (List (List R)))
  px_dropout : Option (List (List (List R)))
  alpha : Option (List (List (List R)))
  beta : Option (List (List (List R)))
  qz_m : List (List (List R))
  qz_v : List (List (List R))
  z : List (List (List R))
  ql_m : List (List (List R))
  ql_v : List (List (List R))
  library : List (List (List R))
deriving DecidableEq

/-- VAE_ATAC.inference on the n_samples > 1 path (vae_atac.py lines 245-251):
the posterior parameters are expanded along a samples dimension, z and the
library are resampled per sample with fresh noise (no output transform is
applied on this path), and the decoder runs on every sample. -/
def VAE_ATAC.inferenceMulti (P : Prims R) (m : VAE_ATAC R) (x : List (List R))
    (batch_index y : List ℕ) (zN lN : List (List R)) (nsamples : ℕ)
    (zNs lNs : List (List (List R))) : Except String (ATACInferOut3 R) :=
  let e := m.encode P x zN lN
  let zsamples := zNs.map (fun ns => reparamRows P e.qz_m e.qz_v ns)
  let lsamples := lNs.map (fun ns => reparamRows P e.ql_m e.ql_v ns)
  (seqE ((zsamples.zip lsamples).map
      (fun p => m.decode P p.1 p.2 batch_index y))).map (fun ds =>
    { px_scale := stackOpt (ds.map (fun d => d.px_scale))
      px_r := stackOpt (ds.map (fun d => d.px_r))
      px_rate := stackOpt (ds.map (fun d => d.px_rate))
      px_dropout := stackOpt (ds.map (fun d => d.px_dropout))
      alpha := stackOpt (ds.map (fun d => d.alpha))
      beta := stackOpt (ds.map (fun d => d.beta))
      qz_m := List.replicate nsamples e.qz_m
      qz_v := List.replicate nsamples e.qz_v
      z := zsamples
      ql_m := List.replicate nsamples e.ql_m
      ql_v := List.replicate nsamples e.ql_v
      library := lsamples })

/-- VAE_ATAC.inference as a state transformer: the method reads the model and
assigns nothing to self, so the model component of the result is the model it
was called on; the output follows the n_samples dispatch of the source. -/
def VAE_ATAC.inferenceS (P : Prims R) (m : VAE_ATAC R) (x : List (List R))
    (batch_index y : List ℕ) (zN lN : List (List R)) (nsamples : ℕ)
    (zNs lNs : List (List (List R))) :
    VAE_ATAC R × Except String (ATACInferOut R ⊕ ATACInferOut3 R) :=
  (m,
    if 1 < nsamples then
      (m.inferenceMulti P x batch_index y zN lN nsamples zNs lNs).map Sum.inr
    else
      (m.inference P x batch_index y zN lN).map Sum.inl)

/-- VAE_ATAC.get_sample_scale (vae_atac.py lines 185-195): element 0 of the
inference tuple, the predicted expression scale. -/
def VAE_ATAC.get_sample_scale (P : Prims R) (m : VAE_ATAC R) (x : List (List R))
    (batch_index y : List ℕ) (zN lN : List (List R)) (nsamples : ℕ)
    (zNs lNs : List (List (List R))) :
    Except String (Option (List (List R)) ⊕ Option (List (List (List R)))) :=
  if 1 < nsamples then
    (m.inferenceMulti P x batch_index y zN lN nsamples zNs lNs).map
      (fun io => Sum.inr io.px_scale)
  else
    (m.inference P x batch_index y zN lN).map (fun io => Sum.inl io.px_scale)

/-- VAE_ATAC.get_sample_rate (vae_atac.py lines 197-207): element 2 of the
inference tuple, the predicted likelihood rate. -/
def VAE_ATAC.get_sample_rate (P : Prims R) (m : VAE_ATAC R) (x : List (List R))
    (batch_index y : List ℕ) (zN lN : List (List R)) (nsamples : ℕ)
    (zNs lNs : List (List (List R))) :
    Except String (Option (List (List R)) ⊕ Option (List (List (List R)))) :=
  if 1 < nsamples then
    (m.inferenceMulti P x batch_index y zN lN nsamples zNs lNs).map
      (fun io => Sum.inr io.px_rate)
  else
    (m.inference P x batch_index y zN lN).map (fun io => Sum.inl io.px_rate)

/-- VAE_ATAC._reconstruction_loss (vae_atac.py lines 209-225): the per-cell
negative log-likelihood under the configured family; a None tensor reaching a
likelihood call is a runtime error.  Every unrecognized family name falls into
the final multinomial branch, exactly as the source's else does. -/
def VAE_ATAC.reconstructionLoss (P : Prims R) (m : VAE_ATAC R)
    (x : List (List R)) (px_rate px_r px_dropout alpha beta : Option (List (List R))) :
    Except String (List R) :=
  if m.reconstruction_loss = "zinb" then
    match px_rate, px_r, px_dropout with
    | some rate, some r, some drop =>
      .ok (List.zipWith (fun xc p => -log_zinb_positive P xc p.1 p.2.1 p.2.2)
        x (rate.zip (r.zip drop)))
    | _, _, _ => .error "TypeError: log_zinb_positive on NoneType"
  else if m.reconstruction_loss = "nb" then
    match px_rate, px_r with
    | some rate, some r =>
      .ok (List.zipWith (fun xc p => -log_nb_positive P xc p.1 p.2) x (rate.zip r))
    | _, _ => .error "TypeError: log_nb_positive on NoneType"
  else if m.reconstruction_loss = "beta-bernoulli" then
    match alpha, beta with
    | some a, some b =>
      .ok (List.zipWith (fun xc p => -log_beta_bernoulli P xc p.1 p.2) x (a.zip b))
    | _, _ => .error "TypeError: log_beta_bernoulli on NoneType"
  else if m.reconstruction_loss = "bernoulli" then
    match beta with
    | some b => .ok (List.zipWith (fun xc bc => -log_bernoulli P xc bc) x b)
    | none => .error "TypeError: bernoulli loss on NoneType"
  else if m.reconstruction_loss = "zero_inflated_bernoulli" then
    match beta, alpha with
    | some b, some a =>
      .ok (List.zipWith (fun xc p => -log_zero_inflated_bernoulli P xc p.1 p.2)
        x (b.zip a))
    | _, _ => .error "TypeError: log_zero_inflated_bernoulli on NoneType"
  else
    match alpha with
    | some a => .ok (List.zipWith (fun xc ac => -log_multinomial P xc ac) x a)
    | none => .error "TypeError: Multinomial on NoneType"

/-- The z-prior mean and scale used by both forward methods: the standard
normal when no alpha prior is configured, otherwise the moment-matched
formulas of vae_atac.py lines 332-336 / vae_cite.py lines 465-472. -/
def zPriorMeanScale (P : Prims R) (ap : Option R) (nlatent : ℕ) : R × R :=
  match ap with
  | none => (0, 1)
  | some a =>
    (a - (1 / (nlatent : R)) * ((nlatent : R) * a),
     P.sqrt ((1 / P.exp a) * (1 - 2 / (nlatent : R))
       + (1 / (nlatent : R) ^ 2) * ((nlatent : R) * 1 / P.exp a)))

/-- Per-cell KL divergence between the posterior rows Normal(m1, sqrt v1) and
a prior with constant mean and scale, summed over the row (the
kl(...).sum(dim=1) of the source for the z latent). -/
def klRowsConst (P : Prims R) (m1 v1 : List (List R)) (mu sc : R) : List R :=
  List.zipWith
    (fun mc vc => (List.zipWith (fun a b => klNN P a (P.sqrt b) mu sc) mc vc).sum)
    m1 v1

/-- Per-cell KL divergence between posterior rows Normal(m1, sqrt v1) and
per-cell prior rows Normal(m2, sqrt v2), summed over the row (the
kl(...).sum(dim=1) of the source for the library latents). -/
def klRowsNN (P : Prims R) (m1 v1 m2 v2 : List (List R)) : List R :=
  List.zipWith
    (fun p q =>
      (List.zipWith (fun a b => klNN P a.1 (P.sqrt a.2) b.1 (P.sqrt b.2))
        (p.1.zip p.2) (q.1.zip q.2)).sum)
    (m1.zip v1) (m2.zip v2)

/-- The kl_divergence_z term of VAE_ATAC.forward (vae_atac.py lines 326-340). -/
def VAE_ATAC.klDivergenceZ (P : Prims R) (m : VAE_ATAC R)
    (qz_m qz_v : List (List R)) : List R :=
  let ms := zPriorMeanScale P m.l_alpha_prior m.n_latent
  klRowsConst P qz_m qz_v ms.1 ms.2

/-- VAE_ATAC.forward (vae_atac.py lines 307-360): inference, the z KL, the
library KL (skipped, that is the scalar 0, for the bernoulli-family losses),
and the reconstruction loss; returns the pair
(reconstruction loss + library KL, z KL). -/
def VAE_ATAC.forward (P : Prims R) (m : VAE_ATAC R)
    (x local_l_mean local_l_var : List (List R)) (batch_index y : List ℕ)
    (zN lN : List (List R)) : Except String (List R × List R) :=
  (m.inference P x batch_index y zN lN).bind (fun io =>
    let kl_z := m.klDivergenceZ P io.qz_m io.qz_v
    (VAE_ATAC.reconstructionLoss P m x io.px_rate io.px_r io.px_dropout
        io.alpha io.beta).map (fun rl =>
      if m.reconstruction_loss ∈ bernoulliFamily then (rl, kl_z)
      else
        (List.zipWith (fun a b => a + b) rl
          (klRowsNN P io.ql_m io.ql_v local_l_mean local_l_var), kl_z)))

/-- VAE_ATAC.forward as a state transformer: the method assigns nothing to
self, so the model component of the result is the model it was called on. -/
def VAE_ATAC.forwardS (P : Prims R) (m : VAE_ATAC R)
    (x local_l_mean local_l_var : List (List R)) (batch_index y : List ℕ)
    (zN lN : List (List R)) :
    VAE_ATAC R × Except String (List R × List R) :=
  (m, m.forward P x local_l_mean local_l_var batch_index y zN lN)

/-- The model state of VAECITE (src/scvi/models/vae_cite.py): configuration
fields and learned parameters created in __init__ and read by the methods. -/
structure VAECITE (R : Type) where
  umi_dispersion : String
  n_latent : ℕ
  log_variational : Bool
  reconstruction_loss_umi : String
  n_batch : ℕ
  n_labels : ℕ
  n_input_genes : ℕ
  n_input_proteins : ℕ
  reconstruction_loss_adt : String
  adt_mean_lib : Option R
  adt_var_lib : Option R
  adt_dispersion : String
  b_mean : Option R
  b_var : Option R
  model_background : Bool
  latent_distribution : String
  log_b_mean : Option (List R)
  log_b_log_scale : Option (List R)
  log_alpha : Option R
  px_r_umi : Option (TensorParam R)
  px_r_adt : Option (TensorParam R)
  z_encoder : Encoder R
  l_umi_encoder : Encoder R
  l_adt_encoder : Encoder R
  umi_decoder : DecKind R
  adt_decoder : DecKind R
deriving DecidableEq

/-- The freshly initialized weights that VAECITE.__init__ would draw
(torch.randn and the submodule constructions); supplied by the caller so the
embedding stays deterministic. -/
structure CITEWeights (R : Type) where
  alpha_init : R
  log_b_mean_init : List R
  log_b_log_scale_init : List R
  px_r_umi_vec : List R
  px_r_umi_mat_batch : List (List R)
  px_r_umi_mat_label : List (List R)
  px_r_adt_vec : List R
  px_r_adt_mat_batch : List (List R)
  px_r_adt_mat_label : List (List R)
  z_enc : Encoder R
  l_umi_enc : Encoder R
  l_adt_enc : Encoder R
  umi_dec_scvi : DecoderSCVI R
  umi_dec_linear : LinearDecoderSCVI R
  adt_dec_scvi : DecoderSCVI R
  adt_dec_linear : LinearDecoderSCVI R
  adt_dec_plain : DecoderPlain R
deriving DecidableEq

/-- VAECITE.__init__ (vae_cite.py lines 64-211).  The source contains no
raise statement, so construction always succeeds; an adt dispersion string
other than the three protein modes is renamed to "gene-cell" (lines 148-150),
and the log_alpha argument is an optional number (the float test of the
source maps to the some case here). -/
def VAECITE.init (n_input_genes : ℕ) (protein_indexes : List ℕ)
    (n_batch n_labels n_latent : ℕ) (umi_dispersion adt_dispersion : String)
    (log_variational : Bool)
    (reconstruction_loss_umi reconstruction_loss_adt : String)
    (adt_mean_lib adt_var_lib b_mean b_var log_alpha : Option R)
    (model_background linear_decoder : Bool) (latent_distribution : String)
    (w : CITEWeights R) : Except String (VAECITE R) :=
  .ok {
    umi_dispersion := umi_dispersion
    n_latent := n_latent
    log_variational := log_variational
    reconstruction_loss_umi := reconstruction_loss_umi
    n_batch := n_batch
    n_labels := n_labels
    n_input_genes := n_input_genes
    n_input_proteins := protein_indexes.length
    reconstruction_loss_adt := reconstruction_loss_adt
    adt_mean_lib := adt_mean_lib
    adt_var_lib := adt_var_lib
    adt_dispersion :=
      if adt_dispersion = "protein" ∨ adt_dispersion = "protein-batch"
          ∨ adt_dispersion = "protein-label" then adt_dispersion
      else "gene-cell"
    b_mean := b_mean
    b_var := b_var
    model_background := model_background
    latent_distribution := latent_distribution
    log_b_mean := if model_background then some w.log_b_mean_init else none
    log_b_log_scale := if model_background then some w.log_b_log_scale_init else none
    log_alpha :=
      if latent_distribution = "ln" then
        match log_alpha with
        | none => some w.alpha_init
        | some a => some a
      else log_alpha
    px_r_umi :=
      if umi_dispersion = "gene" then some (.vec w.px_r_umi_vec)
      else if umi_dispersion = "gene-batch" then some (.mat w.px_r_umi_mat_batch)
      else if umi_dispersion = "gene-label" then some (.mat w.px_r_umi_mat_label)
      else none
    px_r_adt :=
      if adt_dispersion = "protein" then some (.vec w.px_r_adt_vec)
      else if adt_dispersion = "protein-batch" then some (.mat w.px_r_adt_mat_batch)
      else if adt_dispersion = "protein-label" then some (.mat w.px_r_adt_mat_label)
      else none
    z_encoder := { w.z_enc with distribLN := latent_distribution = "ln" }
    l_umi_encoder := { w.l_umi_enc with distribLN := false }
    l_adt_encoder := { w.l_adt_enc with distribLN := false }
    umi_decoder :=
      if linear_decoder then .linearDec w.umi_dec_linear else .scvi w.umi_dec_scvi
    adt_decoder :=
      if reconstruction_loss_adt = "log_normal" then .plain w.adt_dec_plain
      else if linear_decoder then .linearDec w.adt_dec_linear
      else .scvi w.adt_dec_scvi }

/-- The encoder-phase outputs of VAECITE.inference: the shared z posterior,
the two modality library posteriors, and the optional background sample. -/
structure CITEEncOut (R : Type) where
  qz_m : List (List R)
  qz_v : List (List R)
  z : List (List R)
  ql_m_umi : List (List R)
  ql_v_umi : List (List R)
  library_umi : List (List R)
  ql_m_adt : List (List R)
  ql_v_adt : List (List R)
  library_adt : List (List R)
  log_b : Option (List (List R))
deriving DecidableEq

/-- The encoding phase of VAECITE.inference (vae_cite.py lines 335-352):
optional log(1 + x) transform, the shared z encoder on the concatenated
input, the two library encoders on the modality segments, and, when
background modeling is on, a reparameterized background sample
log_b_mean + noise * exp(log_b_log_scale) per cell. -/
def VAECITE.encode (P : Prims R) (m : VAECITE R) (x zN lNu lNa bN : List (List R)) :
    Except String (CITEEncOut R) :=
  let x_ := if m.log_variational
    then x.map (fun row => row.map (fun t => P.log (1 + t))) else x
  let umi_ := x_.map (fun row => row.take m.n_input_genes)
  let adt_ := x_.map (fun row => row.drop m.n_input_genes)
  let zs := List.zipWith (fun xc nc => m.z_encoder.run P xc nc) x_ zN
  let lus := List.zipWith (fun xc nc => m.l_umi_encoder.run P xc nc) umi_ lNu
  let las := List.zipWith (fun xc nc => m.l_adt_encoder.run P xc nc) adt_ lNa
  let base : CITEEncOut R :=
    { qz_m := zs.map (fun t => t.1), qz_v := zs.map (fun t => t.2.1)
      z := zs.map (fun t => t.2.2)
      ql_m_umi := lus.map (fun t => t.1), ql_v_umi := lus.map (fun t => t.2.1)
      library_umi := lus.map (fun t => t.2.2)
      ql_m_adt := las.map (fun t => t.1), ql_v_adt := las.map (fun t => t.2.1)
      library_adt := las.map (fun t => t.2.2)
      log_b := none }
  if m.model_background then
    match m.log_b_mean, m.log_b_log_scale with
    | some bm, some bs =>
      .ok { base with log_b := some (bN.map (fun nr =>
        List.zipWith (fun p n => p.1 + n * P.exp p.2) (bm.zip bs) nr)) }
    | _, _ => .error "AttributeError: background parameters are None"
  else .ok base

/-- The decode-phase outputs of VAECITE.inference; px_dropout for the adt
modality is absent in the log-normal branch (the source never assigns that
dictionary key there). -/
structure CITEDecodeOut (R : Type) where
  px_scale_umi : List (List R)
  px_r_umi : List (List R)
  px_rate_umi : List (List R)
  px_dropout_umi : List (List R)
  px_scale_adt : List (List R)
  px_r_adt : List (List R)
  px_rate_adt : List (List R)
  px_dropout_adt : Option (List (List R))
deriving DecidableEq

/-- Run the umi or adt decoder module per cell (the DecoderSCVI call of
vae_cite.py, or the linear variant), returning per-cell
(scale, optional dispersion, rate, dropout). -/
def runDecKind (P : Prims R) (dk : DecKind R) (dispersion : String)
    (z library : List (List R)) (n_batch : ℕ) (batch_index : List ℕ) :
    Except String (List (List R × Option (List R) × List R × List R)) :=
  match dk with
  | .scvi d =>
    .ok (List.zipWith
      (fun p b => d.run P dispersion p.1 (p.2.headD 0) (covOf n_batch b))
      (z.zip library) batch_index)
  | .linearDec d =>
    .ok (List.zipWith
      (fun p b => d.run4 P p.1 (p.2.headD 0) (covOf n_batch b))
      (z.zip library) batch_index)
  | .plain _ => .error "TypeError: decoder signature mismatch"

/-- Dispersion selection for one modality (the if/elif chains of
vae_cite.py lines 393-400 and 416-425, and vae_atac.py lines 263-270): pick
the label column, the batch column, the shared vector broadcast to every
cell, or the decoder's per-cell output, then exponentiate; a missing tensor
(unrecognized dispersion reaching torch.exp(None)) is a runtime error. -/
def selectDispersion (P : Prims R) (dispersion : String)
    (param : Option (TensorParam R)) (labelMode batchMode vecMode : String)
    (n_labels n_batch : ℕ) (y batch_index : List ℕ)
    (decOut : List (Option (List R))) (ncells : ℕ) :
    Except String (List (List R)) :=
  let rsel : Option (List (List R)) :=
    if dispersion = labelMode then
      match param with
      | some (.mat M) => some (y.map (fun yi => selectCol M (oneHot n_labels yi)))
      | _ => none
    else if dispersion = batchMode then
      match param with
      | some (.mat M) => some (batch_index.map (fun b => selectCol M (oneHot n_batch b)))
      | _ => none
    else if dispersion = vecMode then
      match param with
      | some (.vec v) => some ((List.range ncells).map (fun _ => v))
      | _ => none
    else stackOpt decOut
  match rsel with
  | none => .error "TypeError: exp expects a tensor, got NoneType"
  | some t => .ok (t.map (fun row => row.map P.exp))

/-- The decoding phase of VAECITE.inference (vae_cite.py lines 386-435): the
umi decoder with its dispersion dispatch, then the adt decoder, which under
background modeling is fed the adt library posterior mean and whose rate
gains the exponentiated background sample; the log-normal adt branch instead
uses the plain decoder, rate = mean + library, and the decoder variance as
dispersion unless the protein mode selects the learned vector. -/
def VAECITE.decode (P : Prims R) (m : VAECITE R)
    (z library_umi library_adt qlm_adt : List (List R))
    (log_b : Option (List (List R))) (batch_index y : List ℕ) :
    Except String (CITEDecodeOut R) :=
  (runDecKind P m.umi_decoder m.umi_dispersion z library_umi m.n_batch
      batch_index).bind (fun outsU =>
  (selectDispersion P m.umi_dispersion m.px_r_umi "gene-label" "gene-batch"
      "gene" m.n_labels m.n_batch y batch_index
      (outsU.map (fun t => t.2.1)) z.length).bind (fun rU =>
  if m.reconstruction_loss_adt ≠ "log_normal" then
    let libEff := if m.model_background then qlm_adt else library_adt
    (runDecKind P m.adt_decoder m.adt_dispersion z libEff m.n_batch
        batch_index).bind (fun outsA =>
    (selectDispersion P m.adt_dispersion m.px_r_adt "protein-label"
        "protein-batch" "protein" m.n_labels m.n_batch y batch_index
        (outsA.map (fun t => t.2.1)) z.length).bind (fun rA =>
    let rate0 := outsA.map (fun t => t.2.2.1)
    let rateE : Except String (List (List R)) :=
      if m.model_background then
        match log_b with
        | some lb =>
          .ok (List.zipWith
            (fun rrow brow => List.zipWith (fun r b => r + P.exp b) rrow brow)
            rate0 lb)
        | none => .error "TypeError: background sample is None"
      else .ok rate0
    rateE.map (fun rateA =>
      { px_scale_umi := outsU.map (fun t => t.1), px_r_umi := rU
        px_rate_umi := outsU.map (fun t => t.2.2.1)
        px_dropout_umi := outsU.map (fun t => t.2.2.2)
        px_scale_adt := outsA.map (fun t => t.1), px_r_adt := rA
        px_rate_adt := rateA
        px_dropout_adt := some (outsA.map (fun t => t.2.2.2)) })))
  else
    match m.adt_decoder with
    | .plain d =>
      let outsA := List.zipWith
        (fun zc b => d.run P zc (covOf m.n_batch b)) z batch_index
      let means := outsA.map (fun t => t.1)
      let vars := outsA.map (fun t => t.2)
      let rateA := List.zipWith
        (fun mrow lrow => mrow.map (fun t => t + lrow.headD 0)) means library_adt
      let rAE : Except String (List (List R)) :=
        if m.adt_dispersion = "protein" then
          match m.px_r_adt with
          | some (.vec v) =>
            .ok ((List.range z.length).map (fun _ => v.map P.exp))
          | _ => .error "TypeError: exp expects a tensor, got NoneType"
        else .ok vars
      rAE.map (fun rA =>
        { px_scale_umi := outsU.map (fun t => t.1), px_r_umi := rU
          px_rate_umi := outsU.map (fun t => t.2.2.1)
          px_dropout_umi := outsU.map (fun t => t.2.2.2)
          px_scale_adt := means, px_r_adt := rA, px_rate_adt := rateA
          px_dropout_adt := none })
    | _ => .error "TypeError: decoder signature mismatch"))

/-- The full return value of VAECITE.inference (the 9-tuple of dictionaries
of vae_cite.py line 436). -/
structure CITEInferOut (R : Type) where
  dec : CITEDecodeOut R
  qz_m : List (List R)
  qz_v : List (List R)
  z : List (List R)
  ql_m_umi : List (List R)
  ql_v_umi : List (List R)
  ql_m_adt : List (List R)
  ql_v_adt : List (List R)
  library_umi : List (List R)
  library_adt : List (List R)
deriving DecidableEq

/-- VAECITE.inference on the n_samples = 1 path (vae_cite.py lines 334-436
with the n_samples > 1 block skipped): encode, then decode. -/
def VAECITE.inference (P : Prims R) (m : VAECITE R) (x : List (List R))
    (batch_index y : List ℕ) (zN lNu lNa bN : List (List R)) :
    Except String (CITEInferOut R) :=
  (m.encode P x zN lNu lNa bN).bind (fun e =>
    (m.decode P e.z e.library_umi e.library_adt e.ql_m_adt e.log_b
        batch_index y).map (fun d =>
      { dec := d, qz_m := e.qz_m, qz_v := e.qz_v, z := e.z
        ql_m_umi := e.ql_m_umi, ql_v_umi := e.ql_v_umi
        ql_m_adt := e.ql_m_adt, ql_v_adt := e.ql_v_adt
        library_umi := e.library_umi, library_adt := e.library_adt }))

/-- The return value of VAECITE.inference on the n_samples > 1 path:
per-sample decode outputs next to the expanded posterior parameters. -/
structure CITEInferOut3 (R : Type) where
  decs : List (CITEDecodeOut R)
  qz_m : List (List (List R))
  qz_v : List (List (List R))
  z : List (List (List R))
  ql_m_umi : List (List (List R))
  ql_v_umi : List (List (List R))
  ql_m_adt : List (List (List R))
  ql_v_adt : List (List (List R))
  library_umi : List (List (List R))
  library_adt : List (List (List R))
deriving DecidableEq

/-- VAECITE.inference on the n_samples > 1 path (vae_cite.py lines 354-384):
the background sample is redrawn with a samples dimension, the posterior
parameters are expanded, z is resampled and passed through the encoder's
output transform, both libraries are resampled, and the decode phase runs per
sample (with the adt decoder still fed the unexpanded ql_m posterior mean
when background modeling is on). -/
def VAECITE.inferenceMulti (P : Prims R) (m : VAECITE R) (x : List (List R))
    (batch_index y : List ℕ) (zN lNu lNa bN : List (List R)) (nsamples : ℕ)
    (zNs lNsU lNsA bNs : List (List (List R))) :
    Except String (CITEInferOut3 R) :=
  (m.encode P x zN lNu lNa bN).bind (fun e =>
    let zsamples := zNs.map (fun ns =>
      (reparamRows P e.qz_m e.qz_v ns).map (fun row => m.z_encoder.transformation P row))
    let lUs := lNsU.map (fun ns => reparamRows P e.ql_m_umi e.ql_v_umi ns)
    let lAs := lNsA.map (fun ns => reparamRows P e.ql_m_adt e.ql_v_adt ns)
    let logbsE : Except String (List (Option (List (List R)))) :=
      if m.model_background then
        match m.log_b_mean, m.log_b_log_scale with
        | some bm, some bs =>
          .ok (bNs.map (fun ns => some (ns.map (fun nr =>
            List.zipWith (fun p n => p.1 + n * P.exp p.2) (bm.zip bs) nr))))
        | _, _ => .error "AttributeError: background parameters are None"
      else .ok (List.replicate nsamples none)
    logbsE.bind (fun logbs =>
      (seqE (((zsamples.zip lUs).zip (lAs.zip logbs)).map (fun p =>
          m.decode P p.1.1 p.1.2 p.2.1 e.ql_m_adt p.2.2 batch_index y))).map
        (fun ds =>
          { decs := ds
            qz_m := List.replicate nsamples e.qz_m
            qz_v := List.replicate nsamples e.qz_v
            z := zsamples
            ql_m_umi := List.replicate nsamples e.ql_m_umi
            ql_v_umi := List.replicate nsamples e.ql_v_umi
            ql_m_adt := List.replicate nsamples e.ql_m_adt
            ql_v_adt := List.replicate nsamples e.ql_v_adt
            library_umi := lUs
            library_adt := lAs })))

/-- VAECITE.inference as a state transformer: the method reads the model and
assigns nothing to self, so the model component of the result is the model it
was called on; the output follows the n_samples dispatch of the source. -/
def VAECITE.inferenceS (P : Prims R) (m : VAECITE R) (x : List (List R))
    (batch_index y : List ℕ) (zN lNu lNa bN : List (List R)) (nsamples : ℕ)
    (zNs lNsU lNsA bNs : List (List (List R))) :
    VAECITE R × Except String (CITEInferOut R ⊕ CITEInferOut3 R) :=
  (m,
    if 1 < nsamples then
      (m.inferenceMulti P x batch_index y zN lNu lNa bN nsamples zNs lNsU lNsA bNs).map
        Sum.inr
    else
      (m.inference P x batch_index y zN lNu lNa bN).map Sum.inl)

/-- VAECITE._reconstruction_loss (vae_cite.py lines 312-332): the input is
split at n_input_genes into the umi and adt segments; the umi loss is zinb or
nb, the adt loss is poisson, nb or log-normal, and any other adt family name
leaves the local unbound (UnboundLocalError at forward time). -/
def VAECITE.reconstructionLoss (P : Prims R) (m : VAECITE R)
    (x : List (List R)) (d : CITEDecodeOut R) :
    Except String (List R × List R) :=
  let umi := x.map (fun row => row.take m.n_input_genes)
  let adt := x.map (fun row => row.drop m.n_input_genes)
  let rlUmi :=
    if m.reconstruction_loss_umi = "zinb" then
      List.zipWith (fun xc p => -log_zinb_positive P xc p.1 p.2.1 p.2.2)
        umi (d.px_rate_umi.zip (d.px_r_umi.zip d.px_dropout_umi))
    else
      List.zipWith (fun xc p => -log_nb_positive P xc p.1 p.2)
        umi (d.px_rate_umi.zip d.px_r_umi)
  if m.reconstruction_loss_adt = "poisson" then
    .ok (rlUmi, List.zipWith (fun xc rc => -log_poisson P xc rc) adt d.px_rate_adt)
  else if m.reconstruction_loss_adt = "nb" then
    .ok (rlUmi, List.zipWith (fun xc p => -log_nb_positive P xc p.1 p.2)
      adt (d.px_rate_adt.zip d.px_r_adt))
  else if m.reconstruction_loss_adt = "log_normal" then
    .ok (rlUmi, List.zipWith (fun xc p => -log_lognormal P xc p.1 p.2)
      adt (d.px_rate_adt.zip d.px_r_adt))
  else .error "UnboundLocalError: reconst_loss_adt referenced before assignment"

/-- VAECITE.forward (vae_cite.py lines 438-509): inference, the two
reconstruction losses, the z KL (with the optional alpha prior), the umi
library KL against the externally supplied prior, and then the background
branch: with background modeling the background KL is the total (scalar) KL
of the adt library posterior against Normal(b_mean, sqrt b_var) and a
log-normal log-probability of exp(ql_m_adt) is subtracted from the z KL;
without background modeling the source calls self.adt_mean_lib.device(),
which raises (a tensor's device attribute is not callable, and None has no
such attribute), so forward never returns on that path.  The returned terms
are (umi reconstruction + umi library KL, adt reconstruction, z KL minus the
library log-probability, background KL). -/
def VAECITE.forward (P : Prims R) (m : VAECITE R)
    (x local_l_mean_umi local_l_var_umi : List (List R))
    (batch_index y : List ℕ) (zN lNu lNa bN : List (List R)) :
    Except String (List R × List R × List R × R) :=
  (m.inference P x batch_index y zN lNu lNa bN).bind (fun io =>
    (m.reconstructionLoss P x io.dec).bind (fun rl =>
      let ms := zPriorMeanScale P m.log_alpha m.n_latent
      let kl_z := klRowsConst P io.qz_m io.qz_v ms.1 ms.2
      let kl_l_umi := klRowsNN P io.ql_m_umi io.ql_v_umi
        local_l_mean_umi local_l_var_umi
      if m.model_background then
        match m.b_mean, m.b_var, m.adt_mean_lib, m.adt_var_lib with
        | some bm, some bv, some aml, some avl =>
          let kl_back := (klRowsConst P io.ql_m_adt io.ql_v_adt bm (P.sqrt bv)).sum
          let library_log_prob := io.ql_m_adt.map (fun row =>
            (row.map (fun q => log_lognormal_term P (P.exp q) aml (P.sqrt avl))).sum)
          .ok (List.zipWith (fun a b => a + b) rl.1 kl_l_umi, rl.2,
            List.zipWith (fun a b => a - b) kl_z library_log_prob, kl_back)
        | _, _, _, _ => .error "AttributeError: background prior is None"
      else
        match m.adt_mean_lib with
        | none => .error "AttributeError: NoneType object has no attribute device"
        | some _ => .error "TypeError: torch.device object is not callable"))

/-- VAECITE.forward as a state transformer: the method assigns nothing to
self, so the model component of the result is the model it was called on. -/
def VAECITE.forwardS (P : Prims R) (m : VAECITE R)
    (x local_l_mean_umi local_l_var_umi : List (List R))
    (batch_index y : List ℕ) (zN lNu lNa bN : List (List R)) :
    VAECITE R × Except String (List R × List R × List R × R) :=
  (m, m.forward P x local_l_mean_umi local_l_var_umi batch_index y zN lNu lNa bN)

/-- Extract the payload of a successful computation, with a fallback for the
error case (used only to phrase closed concrete statements). -/
def exOk {A : Type} (d : A) : Except String A → A
  | .ok a => a
  | .error _ => d

/-- A batch is entrywise strictly positive. -/
def allPos (t : List (List R)) : Prop := ∀ row ∈ t, ∀ v ∈ row, 0 < v

instance (t : List (List R)) [DecidableEq R] : Decidable (allPos t) := by
  unfold allPos; infer_instance

/-- Concrete computable primitive record over the rationals used by the
witnesses: exp is the constant 1 (strictly positive everywhere), log the
constant 0 (satisfying log(a*b) = log a + log b and log 1 = 0), sqrt the
identity (positive on positives). -/
def QP : Prims ℚ :=
  { exp := fun _ => 1, log := fun _ => 0, sqrt := fun a => a
    lgamma := fun _ => 0, pi := 3 }

/-- A one-output linear layer with zero weights. -/
def lin1 : Linear ℚ := { weight := [[]], bias := [0] }

/-- A two-output linear layer with zero weights. -/
def lin2 : Linear ℚ := { weight := [[], []], bias := [0, 0] }

/-- A five-output linear layer with zero weights. -/
def lin5 : Linear ℚ := { weight := [[], [], [], [], []], bias := [0, 0, 0, 0, 0] }

/-- A one-dimensional encoder with zero weights and no hidden layers. -/
def enc1 : Encoder ℚ :=
  { hidden := [], meanLayer := lin1, varLayer := lin1, distribLN := false }

/-- A five-feature scVI decoder with zero weights. -/
def decSCVI5 : DecoderSCVI ℚ :=
  { hidden := [], scaleLayer := lin5, rLayer := lin5, dropoutLayer := lin5 }

/-- A two-feature scVI decoder with zero weights. -/
def decSCVI2 : DecoderSCVI ℚ :=
  { hidden := [], scaleLayer := lin2, rLayer := lin2, dropoutLayer := lin2 }

/-- A five-feature linear decoder with zero weights. -/
def decLin5 : LinearDecoderSCVI ℚ := { scaleLayer := lin5, dropoutLayer := lin5 }

/-- A two-feature linear decoder with zero weights. -/
def decLin2 : LinearDecoderSCVI ℚ := { scaleLayer := lin2, dropoutLayer := lin2 }

/-- A five-feature plain decoder with zero weights. -/
def decPlain5 : DecoderPlain ℚ :=
  { hidden := [], meanLayer := lin5, varLayer := lin5 }

/-- A two-feature plain decoder with zero weights. -/
def decPlain2 : DecoderPlain ℚ :=
  { hidden := [], meanLayer := lin2, varLayer := lin2 }

/-- Concrete initial weights for a five-feature VAE_ATAC. -/
def atacW0 : ATACWeights ℚ :=
  { alpha_init := 0, px_r_vec := [0, 0, 0, 0, 0]
    px_r_mat_batch := [[]], px_r_mat_label := [[]]
    z_enc := enc1, l_enc := enc1
    dec_scvi := decSCVI5, dec_linear := decLin5, dec_plain := decPlain5 }

/-- Concrete initial weights for a 5-gene, 2-protein VAECITE. -/
def citeW0 : CITEWeights ℚ :=
  { alpha_init := 0
    log_b_mean_init := [0, 0], log_b_log_scale_init := [0, 0]
    px_r_umi_vec := [0, 0, 0, 0, 0]
    px_r_umi_mat_batch := [[]], px_r_umi_mat_label := [[]]
    px_r_adt_vec := [0, 0]
    px_r_adt_mat_batch := [[]], px_r_adt_mat_label := [[]]
    z_enc := enc1, l_umi_enc := enc1, l_adt_enc := enc1
    umi_dec_scvi := decSCVI5, umi_dec_linear := decLin5
    adt_dec_scvi := decSCVI2, adt_dec_linear := decLin2
    adt_dec_plain := decPlain2 }

/-- The five-gene negative-binomial VAE_ATAC model produced by VAE_ATAC.init
with n_input = 5, n_batch = 0, dispersion "gene", reconstruction loss "nb"
and the concrete zero weights. -/
def mNB : VAE_ATAC ℚ :=
  { dispersion := "gene", n_latent := 1, log_variational := false
    reconstruction_loss := "nb", n_batch := 0, n_labels := 0
    l_alpha_prior := none, px_r := some (.vec [0, 0, 0, 0, 0])
    z_encoder := enc1, l_encoder := enc1, decoder := .scvi decSCVI5 }

/-- The five-feature lda VAE_ATAC model (bernoulli-family loss) with the
concrete zero weights, as VAE_ATAC.init builds it. -/
def mLDA : VAE_ATAC ℚ :=
  { dispersion := "gene", n_latent := 1, log_variational := false
    reconstruction_loss := "lda", n_batch := 0, n_labels := 0
    l_alpha_prior := some 0, px_r := some (.vec [0, 0, 0, 0, 0])
    z_encoder := { enc1 with distribLN := true }, l_encoder := enc1
    decoder := .linearDec decLin5 }

/-- Fallback inference output used only to phrase closed witnesses. -/
def ioATACd : ATACInferOut ℚ :=
  { px_scale := none, px_r := none, px_rate := none, px_dropout := none
    alpha := none, beta := none, qz_m := [], qz_v := [], z := []
    ql_m := [], ql_v := [], library := [] }

/-- A 1-cell, 5-gene zero count batch. -/
def x15 : List (List ℚ) := [[0, 0, 0, 0, 0]]

/-- A 4-cell, 5-gene zero count batch. -/
def x45 : List (List ℚ) :=
  [[0, 0, 0, 0, 0], [0, 0, 0, 0, 0], [0, 0, 0, 0, 0], [0, 0, 0, 0, 0]]

/-- A 1-cell, 7-column batch whose last 2 columns are the protein segment. -/
def x17 : List (List ℚ) := [[0, 0, 0, 0, 0, 1, 1]]

/-- Fallback VAECITE model used only to phrase closed witnesses. -/
def mCITEd : VAECITE ℚ :=
  { umi_dispersion := "gene", n_latent := 1, log_variational := true
    reconstruction_loss_umi := "zinb", n_batch := 0, n_labels := 0
    n_input_genes := 5, n_input_proteins := 2, reconstruction_loss_adt := "nb"
    adt_mean_lib := none, adt_var_lib := none, adt_dispersion := "protein"
    b_mean := none, b_var := none, model_background := false
    latent_distribution := "normal", log_b_mean := none, log_b_log_scale := none
    log_alpha := none, px_r_umi := some (.vec [0, 0, 0, 0, 0])
    px_r_adt := some (.vec [0, 0]), z_encoder := enc1, l_umi_encoder := enc1
    l_adt_encoder := enc1, umi_decoder := .scvi decSCVI5
    adt_decoder := .scvi decSCVI2 }

/-- The VAE_ATAC model obtained by constructing with the unrecognized
dispersion "bogus" and reconstruction loss "bogus2". -/
def mBogusA : VAE_ATAC ℚ :=
  exOk mNB (VAE_ATAC.init 5 0 0 1 "bogus" false "bogus2" none atacW0)

/-- The VAECITE model obtained by constructing with unrecognized dispersion
and reconstruction-loss strings throughout. -/
def mBogusC : VAECITE ℚ :=
  exOk mCITEd (VAECITE.init 5 [5, 6] 0 0 1 "bogus" "bogus" true "bogus2" "bogus2"
    none none none none none false false "bogus" citeW0)

/-- Fallback CITE decode output used only to phrase closed witnesses. -/
def decCITEd : CITEDecodeOut ℚ :=
  { px_scale_umi := [], px_r_umi := [], px_rate_umi := [], px_dropout_umi := []
    px_scale_adt := [], px_r_adt := [], px_rate_adt := [], px_dropout_adt := none }

/-- Fallback CITE inference output used only to phrase closed witnesses. -/
def ioCITEd : CITEInferOut ℚ :=
  { dec := decCITEd, qz_m := [], qz_v := [], z := [], ql_m_umi := []
    ql_v_umi := [], ql_m_adt := [], ql_v_adt := [], library_umi := []
    library_adt := [] }

/-- The inference output of the concrete nb model on the 1-cell batch. -/
def ioNB : ATACInferOut ℚ := exOk ioATACd (mNB.inference QP x15 [0] [0] [[0]] [[0]])

/-- The dispersion tensor of that inference output. -/
def ioNBpxr : List (List ℚ) := ioNB.px_r.getD []

/-- A concrete background-modeling VAECITE model (5 genes, proteins in the
last 2 of 7 columns). -/
def mCITEbg : VAECITE ℚ :=
  exOk mCITEd (VAECITE.init 5 [5, 6] 0 0 1 "gene" "protein" true "nb" "nb"
    (some 0) (some 1) (some 0) (some 4) none true false "normal" citeW0)

/-- The inference output of the background-modeling model on the 1-cell,
7-column batch. -/
def ioCITEbg : CITEInferOut ℚ :=
  exOk ioCITEd (mCITEbg.inference QP x17 [0] [0] [[0]] [[0]] [[0]] [[0, 0]])

/-- The inference output of the concrete nb model on the 4-cell batch. -/
def ioC4 : ATACInferOut ℚ :=
  exOk ioATACd (mNB.inference QP x45 [0, 0, 0, 0] [0, 0, 0, 0]
    [[0], [0], [0], [0]] [[0], [0], [0], [0]])

/-- The rate tensor of that inference output. -/
def ioC4rate : List (List ℚ) := ioC4.px_rate.getD []

/-- The dispersion tensor of that inference output. -/
def ioC4r : List (List ℚ) := ioC4.px_r.getD []

/-- The forward output of the concrete nb model on the 4-cell batch. -/
def prC4 : List ℚ × List ℚ :=
  exOk ([], []) (mNB.forward QP x45 [[0], [0], [0], [0]] [[1], [1], [1], [1]]
    [0, 0, 0, 0] [0, 0, 0, 0] [[0], [0], [0], [0]] [[0], [0], [0], [0]])

/-- The inference output of the concrete lda model on the 1-cell batch. -/
def ioLDA : ATACInferOut ℚ := exOk ioATACd (mLDA.inference QP x15 [0] [0] [[0]] [[0]])

/-- The reconstruction loss of the lda model on that batch. -/
def rlLDA : List ℚ :=
  exOk [] (VAE_ATAC.reconstructionLoss QP mLDA x15 ioLDA.px_rate ioLDA.px_r
    ioLDA.px_dropout ioLDA.alpha ioLDA.beta)

/- ------------------------------------------------------------------ -/
/- Helper lemmas                                                      -/
/- ------------------------------------------------------------------ -/

theorem mem_zipWith {A B C : Type} {f : A → B → C} :
    ∀ {la : List A} {lb : List B} {c : C}, c ∈ List.zipWith f la lb →
      ∃ a ∈ la, ∃ b ∈ lb, c = f a b := by
  intro la
  induction la with
  | nil => intro lb c h; simp at h
  | cons a t ih =>
    intro lb c h
    cases lb with
    | nil => simp at h
    | cons b tb =>
      rw [List.zipWith_cons_cons, List.mem_cons] at h
      rcases h with h | h
      · exact ⟨a, by simp, b, by simp, h⟩
      · rcases ih h with ⟨a1, ha1, b1, hb1, rfl⟩
        exact ⟨a1, by simp [ha1], b1, by simp [hb1], rfl⟩

theorem zipWith_congr_mem {A B C : Type} {f g : A → B → C} :
    ∀ (la : List A) (lb : List B), (∀ a ∈ la, ∀ b ∈ lb, f a b = g a b) →
      List.zipWith f la lb = List.zipWith g la lb := by
  intro la
  induction la with
  | nil => intro lb _; simp
  | cons a t ih =>
    intro lb h
    cases lb with
    | nil => simp
    | cons b tb =>
      rw [List.zipWith_cons_cons, List.zipWith_cons_cons,
        h a (by simp) b (by simp), ih tb (fun a1 ha1 b1 hb1 =>
          h a1 (by simp [ha1]) b1 (by simp [hb1]))]

theorem softmax_pos (P : Prims R) (hexp : ∀ t : R, 0 < P.exp t) (v : List R) :
    ∀ a ∈ softmax P v, 0 < a := by
  intro a ha
  unfold softmax at ha
  rcases List.mem_map.mp ha with ⟨e, he, rfl⟩
  have hsum : 0 < (v.map P.exp).sum := by
    apply List.sum_pos
    · intro a2 ha2
      rcases List.mem_map.mp ha2 with ⟨t, _, rfl⟩
      exact hexp t
    · intro hnil
      rw [hnil] at he
      simp at he
  have hepos : 0 < e := by
    rcases List.mem_map.mp he with ⟨t, _, rfl⟩
    exact hexp t
  exact div_pos hepos hsum

theorem seqE_ok_length {E A : Type} :
    ∀ {l : List (Except E A)} {ds : List A}, seqE l = .ok ds →
      ds.length = l.length := by
  intro l
  induction l with
  | nil => intro ds h; simp only [seqE] at h; cases h; rfl
  | cons e t ih =>
    intro ds h
    simp only [seqE] at h
    cases e with
    | error err => simp [Except.bind] at h
    | ok a =>
      simp only [Except.bind] at h
      cases hs : seqE t with
      | error err => rw [hs] at h; simp [Except.map] at h
      | ok ds2 =>
        rw [hs] at h
        simp only [Except.map] at h
        cases h
        simp [ih hs]

theorem seqE_ok_mem {E A : Type} :
    ∀ {l : List (Except E A)} {ds : List A}, seqE l = .ok ds →
      ∀ d ∈ ds, Except.ok (ε := E) d ∈ l := by
  intro l
  induction l with
  | nil => intro ds h d hd; simp only [seqE] at h; cases h; simp at hd
  | cons e t ih =>
    intro ds h d hd
    simp only [seqE] at h
    cases e with
    | error err => simp [Except.bind] at h
    | ok a =>
      simp only [Except.bind] at h
      cases hs : seqE t with
      | error err => rw [hs] at h; simp [Except.map] at h
      | ok ds2 =>
        rw [hs] at h
        simp only [Except.map] at h
        cases h
        rcases List.mem_cons.mp hd with rfl | hd2
        · simp
        · exact List.mem_cons_of_mem _ (ih hs d hd2)

theorem klNN_eq_klNormalSpec (P : Prims R)
    (hmul : ∀ a b : R, 0 < a → 0 < b → P.log (a * b) = P.log a + P.log b)
    (hone : P.log 1 = 0) {m1 s1 m2 s2 : R} (hs1 : 0 < s1) (hs2 : 0 < s2) :
    klNN P m1 s1 m2 s2 = klNormalSpec P m1 s1 m2 s2 := by
  have h12 : (0 : R) < s1 / s2 := div_pos hs1 hs2
  have h21 : (0 : R) < s2 / s1 := div_pos hs2 hs1
  have hsq : P.log ((s1 / s2) ^ 2) = P.log (s1 / s2) + P.log (s1 / s2) := by
    rw [sq]; exact hmul _ _ h12 h12
  have hinv : P.log (s2 / s1) = -P.log (s1 / s2) := by
    have hm : s1 / s2 * (s2 / s1) = 1 := by
      field_simp
    have h2 := hmul _ _ h12 h21
    rw [hm, hone] at h2
    linarith
  show ((s1 / s2) ^ 2 + ((m1 - m2) / s2) ^ 2 - 1 - P.log ((s1 / s2) ^ 2)) / 2
    = P.log (s2 / s1) + (s1 ^ 2 + (m1 - m2) ^ 2) / (2 * s2 ^ 2) - 1 / 2
  rw [hsq, hinv]
  have hs1' : s1 ≠ 0 := ne_of_gt hs1
  have hs2' : s2 ≠ 0 := ne_of_gt hs2
  field_simp
  ring

/- ------------------------------------------------------------------ -/
/- Claim theorems                                                     -/
/- ------------------------------------------------------------------ -/

/-- Claim C5: for every fixed model parameter set and every input batch,
invoking forward twice with the same random state yields identical outputs;
forward is a deterministic function of (input batch, parameters, random
state) with no other hidden input.  Stated through the stateful wrappers:
running forward again on the model state left by a first run, with the same
inputs and noise, reproduces the first result exactly. -/
theorem C5_forward_deterministic (P : Prims R) (m : VAE_ATAC R) (mc : VAECITE R)
    (x llm llv : List (List R)) (b y : List ℕ) (zN lN : List (List R))
    (xc llmu llvu : List (List R)) (bc yc : List ℕ) (zNc lNu lNa bN : List (List R)) :
    VAE_ATAC.forwardS P (VAE_ATAC.forwardS P m x llm llv b y zN lN).1
        x llm llv b y zN lN
      = VAE_ATAC.forwardS P m x llm llv b y zN lN
    ∧ VAECITE.forwardS P (VAECITE.forwardS P mc xc llmu llvu bc yc zNc lNu lNa bN).1
        xc llmu llvu bc yc zNc lNu lNa bN
      = VAECITE.forwardS P mc xc llmu llvu bc yc zNc lNu lNa bN :=
  ⟨rfl, rfl⟩

/-- Claim C8: for every input batch and every n_samples value, calling
inference or forward leaves the model's state (learned parameters and
configuration fields) unchanged: the model component returned by the
stateful wrappers is exactly the model they were called on. -/
theorem C8_inference_forward_frame (P : Prims R) (m : VAE_ATAC R) (mc : VAECITE R)
    (x llm llv : List (List R)) (b y : List ℕ) (zN lN : List (List R))
    (nsamples : ℕ) (zNs lNs : List (List (List R)))
    (xc llmu llvu : List (List R)) (bc yc : List ℕ) (zNc lNu lNa bN : List (List R))
    (nc : ℕ) (zNsC lNsU lNsA bNs : List (List (List R))) :
    (VAE_ATAC.inferenceS P m x b y zN lN nsamples zNs lNs).1 = m
    ∧ (VAE_ATAC.forwardS P m x llm llv b y zN lN).1 = m
    ∧ (VAECITE.inferenceS P mc xc bc yc zNc lNu lNa bN nc zNsC lNsU lNsA bNs).1 = mc
    ∧ (VAECITE.forwardS P mc xc llmu llvu bc yc zNc lNu lNa bN).1 = mc :=
  ⟨rfl, rfl, rfl, rfl⟩

/-- Claim C9: for every configured alpha-prior value ap and every
n_latent ≥ 1, the z-prior mean computed by forward in the alpha branch,
ap - (1/n_latent) * (n_latent * ap), is exactly 0 under exact arithmetic, the
same prior mean as the standard-normal default branch: the alpha prior can
only change the prior scale, never the prior mean. -/
theorem C9_alpha_prior_mean_zero (P : Prims R) (ap : R) (n : ℕ) (hn : 1 ≤ n) :
    (zPriorMeanScale P (some ap) n).1 = 0
    ∧ (zPriorMeanScale P (none : Option R) n).1 = 0 := by
  constructor
  · show ap - 1 / (n : R) * ((n : R) * ap) = 0
    have hne : (n : R) ≠ 0 := Nat.cast_ne_zero.mpr (Nat.one_le_iff_ne_zero.mp hn)
    field_simp
  · rfl

/-- Witness for C9 at the concrete alpha prior 5 and n_latent 3 over ℚ. -/
theorem C9_witness :
    1 ≤ 3
    ∧ (zPriorMeanScale QP (some (5 : ℚ)) 3).1 = 0
    ∧ (zPriorMeanScale QP (none : Option ℚ) 3).1 = 0 :=
  ⟨by norm_num, (C9_alpha_prior_mean_zero QP 5 3 (by norm_num)).1,
    (C9_alpha_prior_mean_zero QP 5 3 (by norm_num)).2⟩

/-- Claim C2 (as amended): constructing VAE_ATAC or VAECITE never raises, for
recognized and unrecognized dispersion-mode and reconstruction-loss strings
alike; an unrecognized VAE_ATAC dispersion silently allocates no dispersion
parameter (the gene-cell fallthrough) and an unrecognized VAECITE adt
dispersion is silently renamed to "gene-cell". -/
theorem C2_construction_never_raises
    (ni nb nl nlat : ℕ) (disp : String) (lv : Bool) (rl : String)
    (lap : Option R) (w : ATACWeights R)
    (gN : ℕ) (pidx : List ℕ) (cb cl cn : ℕ) (ud ad : String) (clv : Bool)
    (rlu rla : String) (aml avl bm bv la : Option R) (mb ld : Bool)
    (latd : String) (cw : CITEWeights R) :
    (VAE_ATAC.init ni nb nl nlat disp lv rl lap w).isOk = true
    ∧ (∀ m, VAE_ATAC.init ni nb nl nlat disp lv rl lap w = .ok m →
        disp ∉ (["gene", "gene-batch", "gene-label"] : List String) →
        m.px_r = none)
    ∧ (VAECITE.init gN pidx cb cl cn ud ad clv rlu rla aml avl bm bv la mb ld
        latd cw).isOk = true
    ∧ (∀ mc, VAECITE.init gN pidx cb cl cn ud ad clv rlu rla aml avl bm bv la
        mb ld latd cw = .ok mc →
        ad ∉ (["protein", "protein-batch", "protein-label"] : List String) →
        mc.adt_dispersion = "gene-cell") := by
  refine ⟨rfl, ?_, rfl, ?_⟩
  · intro m hm hd
    simp only [VAE_ATAC.init, Except.ok.injEq] at hm
    subst hm
    simp only [List.mem_cons, List.not_mem_nil, or_false, not_or] at hd
    obtain ⟨h1, h2, h3⟩ := hd
    simp [if_neg h1, if_neg h2, if_neg h3]
  · intro mc hmc hd
    simp only [VAECITE.init, Except.ok.injEq] at hmc
    subst hmc
    simp only [List.mem_cons, List.not_mem_nil, or_false, not_or] at hd
    obtain ⟨h1, h2, h3⟩ := hd
    have hcond : ¬(ad = "protein" ∨ ad = "protein-batch" ∨ ad = "protein-label") := by
      simp [h1, h2, h3]
    simp [if_neg hcond]

/-- Counterexample to claim C2 as stated: construction with the unrecognized
dispersion "bogus" and the unrecognized reconstruction losses "bogus2" does
not raise (both constructors return a model), and forward is reached with the
unrecognized configuration; it is forward, not construction, that fails (in
the multinomial fallback branch on the absent alpha tensor). -/
theorem C2_counterexample :
    (VAE_ATAC.init (R := ℚ) 5 0 0 1 "bogus" false "bogus2" none atacW0).isOk = true
    ∧ (VAECITE.init (R := ℚ) 5 [5, 6] 0 0 1 "bogus" "bogus" true "bogus2" "bogus2"
        none none none none none false false "bogus" citeW0).isOk = true
    ∧ ((VAE_ATAC.init (R := ℚ) 5 0 0 1 "gene" false "bogus2" none atacW0).bind
        (fun m => m.forward QP x15 [[0]] [[1]] [0] [0] [[0]] [[0]]))
      = .error "TypeError: Multinomial on NoneType" :=
  ⟨rfl, rfl, rfl⟩

/-- Witness for C2 at the unrecognized strings "bogus" and "bogus2". -/
theorem C2_witness :
    VAE_ATAC.init (R := ℚ) 5 0 0 1 "bogus" false "bogus2" none atacW0 = .ok mBogusA
    ∧ "bogus" ∉ (["gene", "gene-batch", "gene-label"] : List String)
    ∧ mBogusA.px_r = none
    ∧ VAECITE.init (R := ℚ) 5 [5, 6] 0 0 1 "bogus" "bogus" true "bogus2" "bogus2"
        none none none none none false false "bogus" citeW0 = .ok mBogusC
    ∧ "bogus" ∉ (["protein", "protein-batch", "protein-label"] : List String)
    ∧ mBogusC.adt_dispersion = "gene-cell" :=
  ⟨rfl, by simp,
    (C2_construction_never_raises (R := ℚ) 5 0 0 1 "bogus" false "bogus2" none
        atacW0 5 [5, 6] 0 0 1 "bogus" "bogus" true "bogus2" "bogus2" none none
        none none none false false "bogus" citeW0).2.1 mBogusA rfl (by simp),
    rfl, by simp,
    (C2_construction_never_raises (R := ℚ) 5 0 0 1 "bogus" false "bogus2" none
        atacW0 5 [5, 6] 0 0 1 "bogus" "bogus" true "bogus2" "bogus2" none none
        none none none false false "bogus" citeW0).2.2.2 mBogusC rfl (by simp)⟩

/-- Claim C1 (as amended): both forward methods return the z KL (and, for
VAECITE, the background KL) as separate components, but the library-size KL
terms are pre-summed into the reconstruction-loss components before
returning: VAE_ATAC.forward returns (reconstruction + library KL, z KL)
(the library KL being the scalar 0 for the bernoulli-family losses), and
VAECITE.forward, on its returning path (background modeling on), returns the
umi reconstruction plus the umi library KL as its first component. -/
theorem C1_forward_presums_library_kl (P : Prims R)
    (m : VAE_ATAC R) (x llm llv : List (List R)) (b y : List ℕ)
    (zN lN : List (List R)) (mc : VAECITE R)
    (xc llmu llvu : List (List R)) (bc yc : List ℕ)
    (zNc lNu lNa bN : List (List R)) :
    m.forward P x llm llv b y zN lN
      = (m.inference P x b y zN lN).bind (fun io =>
          (VAE_ATAC.reconstructionLoss P m x io.px_rate io.px_r io.px_dropout
              io.alpha io.beta).map (fun rl =>
            if m.reconstruction_loss ∈ bernoulliFamily then
              (rl, m.klDivergenceZ P io.qz_m io.qz_v)
            else
              (List.zipWith (fun a b => a + b) rl
                (klRowsNN P io.ql_m io.ql_v llm llv),
               m.klDivergenceZ P io.qz_m io.qz_v)))
    ∧ mc.forward P xc llmu llvu bc yc zNc lNu lNa bN
      = (mc.inference P xc bc yc zNc lNu lNa bN).bind (fun io =>
          (mc.reconstructionLoss P xc io.dec).bind (fun rl =>
            let ms := zPriorMeanScale P mc.log_alpha mc.n_latent
            let kl_z := klRowsConst P io.qz_m io.qz_v ms.1 ms.2
            let kl_l_umi := klRowsNN P io.ql_m_umi io.ql_v_umi llmu llvu
            if mc.model_background then
              match mc.b_mean, mc.b_var, mc.adt_mean_lib, mc.adt_var_lib with
              | some bm, some bv, some aml, some avl =>
                .ok (List.zipWith (fun a b => a + b) rl.1 kl_l_umi, rl.2,
                  List.zipWith (fun a b => a - b) kl_z
                    (io.ql_m_adt.map (fun row =>
                      (row.map (fun q =>
                        log_lognormal_term P (P.exp q) aml (P.sqrt avl))).sum)),
                  (klRowsConst P io.ql_m_adt io.ql_v_adt bm (P.sqrt bv)).sum)
              | _, _, _, _ => .error "AttributeError: background prior is None"
            else
              match mc.adt_mean_lib with
              | none => .error "AttributeError: NoneType object has no attribute device"
              | some _ => .error "TypeError: torch.device object is not callable")) :=
  ⟨rfl, rfl⟩

/-- Counterexample to claim C1 as stated: for a concrete negative-binomial
VAE_ATAC model and batch, the first component returned by forward differs
from the per-cell reconstruction loss of the same inference outputs — a KL
term (the library-size KL) has been pre-summed into it. -/
theorem C1_counterexample :
    (mNB.forward QP x15 [[0]] [[4]] [0] [0] [[0]] [[0]]).map Prod.fst
      ≠ (mNB.inference QP x15 [0] [0] [[0]] [[0]]).bind
          (fun io => VAE_ATAC.reconstructionLoss QP mNB x15 io.px_rate io.px_r
            io.px_dropout io.alpha io.beta) := by
  simp only [VAE_ATAC.forward, VAE_ATAC.inference, VAE_ATAC.encode, VAE_ATAC.decode,
    VAE_ATAC.reconstructionLoss, VAE_ATAC.klDivergenceZ, Encoder.run,
    Encoder.transformation, DecoderSCVI.run, Linear.apply, runHidden, runHiddenCat,
    dot, softmax, covOf, oneHot, klRowsConst, klRowsNN, klNN, zPriorMeanScale,
    log_nb_positive, mNB, QP, enc1, decSCVI5, lin1, lin5, x15, Except.bind,
    Except.map, bernoulliFamily, stackOpt, selectCol, relu]
  split_ifs <;> simp_all <;> norm_num

set_option maxHeartbeats 1000000 in
/-- Claim C3 (code bug): for a VAECITE model whose protein_indexes cover the
last 2 of 7 input columns, with model_background = False the forward call
does not return reconstruction and KL terms at all: it evaluates
self.adt_mean_lib.device() (vae_cite.py line 494), which raises, so the
claimed zero background term is never produced.  With background modeling
enabled the same batch does return the four terms, and the background KL
term is nonzero. -/
theorem C3_background_disabled_forward_raises :
    ((VAECITE.init (R := ℚ) 5 [5, 6] 0 0 1 "gene" "protein" true "nb" "nb"
        (some 0) (some 1) none none none false false "normal" citeW0).bind
      (fun m => m.forward QP x17 [[0]] [[1]] [0] [0] [[0]] [[0]] [[0]] [[0, 0]]))
      = .error "TypeError: torch.device object is not callable"
    ∧ ((VAECITE.init (R := ℚ) 5 [5, 6] 0 0 1 "gene" "protein" true "nb" "nb"
        (some 0) (some 1) (some 0) (some 4) none true false "normal" citeW0).bind
      (fun m => m.forward QP x17 [[0]] [[1]] [0] [0] [[0]] [[0]] [[0]] [[0, 0]])).isOk
      = true
    ∧ ((VAECITE.init (R := ℚ) 5 [5, 6] 0 0 1 "gene" "protein" true "nb" "nb"
        (some 0) (some 1) (some 0) (some 4) none true false "normal" citeW0).bind
      (fun m => (m.forward QP x17 [[0]] [[1]] [0] [0] [[0]] [[0]] [[0]] [[0, 0]]).map
        (fun t => t.2.2.2)))
      = .ok (-15 / 32) := by
  refine ⟨by decide, by decide, ?_⟩
  simp only [VAECITE.forward, VAECITE.inference, VAECITE.encode, VAECITE.decode,
    VAECITE.reconstructionLoss, VAECITE.init, runDecKind, selectDispersion,
    Encoder.run, Encoder.transformation, DecoderSCVI.run, LinearDecoderSCVI.run4,
    DecoderPlain.run, Linear.apply, runHidden, runHiddenCat, dot, softmax, covOf,
    oneHot, klRowsConst, klRowsNN, klNN, zPriorMeanScale, log_nb_positive,
    log_zinb_positive, log_lognormal_term, softplus, citeW0, QP, enc1, decSCVI5,
    decSCVI2, lin1, lin2, lin5, x17, Except.bind, Except.map, bernoulliFamily,
    stackOpt, selectCol, relu, exOk]
  repeat' split
  all_goals simp_all
  all_goals (rename_i v heq; subst heq; norm_num)

/-- Claim C6: when no alternative alpha prior is configured, the z KL term
computed by forward (the klDivergenceZ definition it returns as its z
component) is the analytic KL divergence between the encoder posterior
Normal(qz_m, sqrt qz_v) and the standard normal prior (mean 0, scale 1),
summed over latent dimensions per cell, and the library-size KL (the klRowsNN
term both forwards attach to the reconstruction component) is the analytic KL
against the externally supplied per-cell prior
Normal(local_l_mean, sqrt local_l_var). -/
theorem C6_kl_terms_analytic (P : Prims R)
    (hmul : ∀ a b : R, 0 < a → 0 < b → P.log (a * b) = P.log a + P.log b)
    (hone : P.log 1 = 0) (hsqrt : ∀ a : R, 0 < a → 0 < P.sqrt a)
    (m : VAE_ATAC R) (hap : m.l_alpha_prior = none)
    (qzm qzv qlm qlv llm llv : List (List R))
    (hqzv : allPos qzv) (hqlv : allPos qlv) (hllv : allPos llv) :
    m.klDivergenceZ P qzm qzv
      = List.zipWith (fun mc vc =>
          (List.zipWith (fun mu v => klNormalSpec P mu (P.sqrt v) 0 1) mc vc).sum)
          qzm qzv
    ∧ klRowsNN P qlm qlv llm llv
      = List.zipWith (fun p q =>
          (List.zipWith (fun a b => klNormalSpec P a.1 (P.sqrt a.2) b.1 (P.sqrt b.2))
            (p.1.zip p.2) (q.1.zip q.2)).sum)
          (qlm.zip qlv) (llm.zip llv) := by
  constructor
  · unfold VAE_ATAC.klDivergenceZ klRowsConst
    rw [hap]
    simp only [zPriorMeanScale]
    apply zipWith_congr_mem
    intro mc _ vc hvc
    congr 1
    apply zipWith_congr_mem
    intro mu _ v hv
    exact klNN_eq_klNormalSpec P hmul hone (hsqrt v (hqzv vc hvc v hv)) one_pos
  · unfold klRowsNN
    apply zipWith_congr_mem
    intro p hp q hq
    congr 1
    apply zipWith_congr_mem
    intro a ha b hb
    rcases p with ⟨p1, p2⟩
    rcases q with ⟨q1, q2⟩
    rcases a with ⟨a1, a2⟩
    rcases b with ⟨b1, b2⟩
    have hp2 : p2 ∈ qlv := (List.of_mem_zip hp).2
    have hq2 : q2 ∈ llv := (List.of_mem_zip hq).2
    have ha2 : a2 ∈ p2 := (List.of_mem_zip ha).2
    have hb2 : b2 ∈ q2 := (List.of_mem_zip hb).2
    exact klNN_eq_klNormalSpec P hmul hone
      (hsqrt _ (hqlv p2 hp2 a2 ha2)) (hsqrt _ (hllv q2 hq2 b2 hb2))

/-- Witness for C6 at the concrete rational primitives and batch. -/
theorem C6_witness :
    mNB.klDivergenceZ QP [[0]] [[1]]
      = List.zipWith (fun mc vc =>
          (List.zipWith (fun mu v => klNormalSpec QP mu (QP.sqrt v) 0 1) mc vc).sum)
          [[(0 : ℚ)]] [[1]]
    ∧ klRowsNN QP [[0]] [[1]] [[0]] [[4]]
      = List.zipWith (fun p q =>
          (List.zipWith (fun a b => klNormalSpec QP a.1 (QP.sqrt a.2) b.1 (QP.sqrt b.2))
            (p.1.zip p.2) (q.1.zip q.2)).sum)
          ([[(0 : ℚ)]].zip [[1]]) ([[(0 : ℚ)]].zip [[4]]) :=
  C6_kl_terms_analytic QP
    (fun _ _ _ _ => by simp [QP]) (by simp [QP]) (fun a h => h) mNB rfl
    [[0]] [[1]] [[0]] [[1]] [[0]] [[4]]
    (by norm_num [allPos]) (by norm_num [allPos]) (by norm_num [allPos])

theorem selectDispersion_ok_pos (P : Prims R) (hexp : ∀ t : R, 0 < P.exp t)
    {dispersion labelMode batchMode vecMode : String}
    {param : Option (TensorParam R)} {n_labels n_batch : ℕ}
    {y batch_index : List ℕ} {decOut : List (Option (List R))} {ncells : ℕ}
    {r : List (List R)}
    (h : selectDispersion P dispersion param labelMode batchMode vecMode
      n_labels n_batch y batch_index decOut ncells = .ok r) :
    allPos r := by
  simp only [selectDispersion] at h
  repeat' split at h
  all_goals cases h
  all_goals intro row hrow v hv
  all_goals rcases List.mem_map.mp hrow with ⟨row0, hrow0, rfl⟩
  all_goals rcases List.mem_map.mp hv with ⟨u, hu, rfl⟩
  all_goals exact hexp u

theorem ATAC_decode_px_r_pos (P : Prims R) (hexp : ∀ t : R, 0 < P.exp t)
    {m : VAE_ATAC R} {z library : List (List R)} {b y : List ℕ}
    {d : ATACDecodeOut R} (h : m.decode P z library b y = .ok d) :
    ∀ t, d.px_r = some t → allPos t := by
  simp only [VAE_ATAC.decode] at h
  repeat' split at h
  all_goals cases h
  all_goals intro t ht
  all_goals cases ht
  all_goals intro row hrow v hv
  all_goals rcases List.mem_map.mp hrow with ⟨row0, hrow0, rfl⟩
  all_goals rcases List.mem_map.mp hv with ⟨u, hu, rfl⟩
  all_goals exact hexp u

theorem CITE_decode_px_r_pos (P : Prims R) (hexp : ∀ t : R, 0 < P.exp t)
    {m : VAECITE R} {z libU libA qA : List (List R)}
    {logb : Option (List (List R))} {b y : List ℕ} {d : CITEDecodeOut R}
    (h : m.decode P z libU libA qA logb b y = .ok d) :
    allPos d.px_r_umi ∧ allPos d.px_r_adt := by
  simp only [VAECITE.decode, Except.bind, Except.map] at h
  repeat' split at h
  all_goals cases h
  all_goals try
    (exact ⟨selectDispersion_ok_pos P hexp (by assumption),
      selectDispersion_ok_pos P hexp (by assumption)⟩)
  rename_i heq
  constructor
  · exact selectDispersion_ok_pos P hexp (by assumption)
  · split at heq
    · split at heq
      · cases heq
        intro row hrow v hv
        rcases List.mem_map.mp hrow with ⟨i, hi, rfl⟩
        rcases List.mem_map.mp hv with ⟨u, hu, rfl⟩
        exact hexp u
      · cases heq
    · cases heq
      intro row hrow v hv
      rcases List.mem_map.mp hrow with ⟨o, ho, rfl⟩
      rcases mem_zipWith ho with ⟨zc, hzc, bb, hbb, rfl⟩
      simp only [DecoderPlain.run] at hv
      rcases List.mem_map.mp hv with ⟨u, hu, rfl⟩
      exact hexp u

/-- Claim C7: for every dispersion granularity and every input, the
dispersion tensor produced by a successful inference call and passed to the
likelihood functions is strictly positive (it is the exponential of an
unconstrained selected value), in VAE_ATAC and in both modalities of
VAECITE. -/
theorem C7_dispersion_positive (P : Prims R) (hexp : ∀ t : R, 0 < P.exp t) :
    (∀ (m : VAE_ATAC R) (x : List (List R)) (b y : List ℕ)
      (zN lN : List (List R)) io t, m.inference P x b y zN lN = .ok io →
      io.px_r = some t → allPos t)
    ∧ (∀ (mc : VAECITE R) (x : List (List R)) (b y : List ℕ)
        (zN lNu lNa bN : List (List R)) io,
        mc.inference P x b y zN lNu lNa bN = .ok io →
        allPos io.dec.px_r_umi ∧ allPos io.dec.px_r_adt) := by
  constructor
  · intro m x b y zN lN io t hio hpx
    unfold VAE_ATAC.inference at hio
    simp only [Except.map] at hio
    split at hio
    · cases hio
    · cases hio
      exact ATAC_decode_px_r_pos P hexp (by assumption) t hpx
  · intro mc x b y zN lNu lNa bN io hio
    unfold VAECITE.inference at hio
    simp only [Except.bind, Except.map] at hio
    split at hio
    · cases hio
    · split at hio
      · cases hio
      · cases hio
        exact CITE_decode_px_r_pos P hexp (by assumption)


/-- Witness for C7: the concrete nb VAE_ATAC model and the concrete
background-modeling VAECITE model, evaluated on 1-cell batches. -/
theorem C7_witness :
    mNB.inference QP x15 [0] [0] [[0]] [[0]] = .ok ioNB
    ∧ ioNB.px_r = some ioNBpxr
    ∧ allPos ioNBpxr
    ∧ mCITEbg.inference QP x17 [0] [0] [[0]] [[0]] [[0]] [[0, 0]] = .ok ioCITEbg
    ∧ allPos ioCITEbg.dec.px_r_umi
    ∧ allPos ioCITEbg.dec.px_r_adt :=
  ⟨rfl, rfl,
    (C7_dispersion_positive QP (fun _ => one_pos)).1 mNB x15 [0] [0] [[0]] [[0]]
      ioNB ioNBpxr rfl rfl,
    rfl,
    ((C7_dispersion_positive QP (fun _ => one_pos)).2 mCITEbg x17 [0] [0] [[0]]
      [[0]] [[0]] [[0, 0]] ioCITEbg rfl).1,
    ((C7_dispersion_positive QP (fun _ => one_pos)).2 mCITEbg x17 [0] [0] [[0]]
      [[0]] [[0]] [[0, 0]] ioCITEbg rfl).2⟩

theorem ATAC_decode_bern_none {P : Prims R} {m : VAE_ATAC R}
    (hbf : m.reconstruction_loss ∈ bernoulliFamily)
    {z library : List (List R)} {b y : List ℕ} {d : ATACDecodeOut R}
    (h : m.decode P z library b y = .ok d) :
    d.px_scale = none ∧ d.px_rate = none := by
  simp only [VAE_ATAC.decode] at h
  split at h
  · repeat' split at h
    all_goals cases h
    all_goals exact ⟨rfl, rfl⟩
  · exact absurd hbf (by assumption)

theorem ATAC_inference_bern_none {P : Prims R} {m : VAE_ATAC R}
    (hbf : m.reconstruction_loss ∈ bernoulliFamily)
    {x : List (List R)} {b y : List ℕ} {zN lN : List (List R)}
    {io : ATACInferOut R} (h : m.inference P x b y zN lN = .ok io) :
    io.px_scale = none ∧ io.px_rate = none := by
  simp only [VAE_ATAC.inference, Except.map] at h
  split at h
  · cases h
  · cases h
    exact ATAC_decode_bern_none hbf (by assumption)

theorem ATAC_inferenceMulti_bern_none {P : Prims R} {m : VAE_ATAC R}
    (hbf : m.reconstruction_loss ∈ bernoulliFamily)
    {x : List (List R)} {b y : List ℕ} {zN lN : List (List R)} {nsamples : ℕ}
    {zNs lNs : List (List (List R))} (hzs : zNs ≠ []) (hls : lNs ≠ [])
    {io3 : ATACInferOut3 R}
    (h : m.inferenceMulti P x b y zN lN nsamples zNs lNs = .ok io3) :
    io3.px_scale = none ∧ io3.px_rate = none := by
  simp only [VAE_ATAC.inferenceMulti, Except.map] at h
  split at h
  · cases h
  · cases h
    rename_i ds heq
    cases ds with
    | nil =>
      exfalso
      have hlen := seqE_ok_length heq
      rcases List.exists_cons_of_ne_nil hzs with ⟨a, ta, rfl⟩
      rcases List.exists_cons_of_ne_nil hls with ⟨c, tc, rfl⟩
      simp at hlen
    | cons d0 rest =>
      have hmem := seqE_ok_mem heq d0 (by simp)
      rcases List.mem_map.mp hmem with ⟨p, _, hdec⟩
      have hnone := ATAC_decode_bern_none hbf hdec
      exact ⟨by simp [stackOpt, hnone.1], by simp [stackOpt, hnone.2]⟩

/-- Claim C10: for every VAE_ATAC model whose reconstruction loss is in the
bernoulli family (beta-bernoulli, zero_inflated_bernoulli, bernoulli,
multinomial, lda) and every input, the query operations get_sample_scale and
get_sample_rate return the None that inference stored in px_scale / px_rate
(on the single-sample path and, for nonempty noise stacks, on the
multi-sample path), and forward adds no library-size KL term: its first
component is exactly the reconstruction loss. -/
theorem C10_bernoulli_family_none_and_no_library_kl (P : Prims R)
    (m : VAE_ATAC R) (hbf : m.reconstruction_loss ∈ bernoulliFamily)
    (x llm llv : List (List R)) (b y : List ℕ) (zN lN : List (List R))
    (nsamples : ℕ) (zNs lNs : List (List (List R)))
    (hzs : zNs ≠ []) (hls : lNs ≠ []) :
    (∀ res, m.get_sample_scale P x b y zN lN nsamples zNs lNs = .ok res →
      res = .inl none ∨ res = .inr none)
    ∧ (∀ res, m.get_sample_rate P x b y zN lN nsamples zNs lNs = .ok res →
      res = .inl none ∨ res = .inr none)
    ∧ (∀ io rl, m.inference P x b y zN lN = .ok io →
        VAE_ATAC.reconstructionLoss P m x io.px_rate io.px_r io.px_dropout
          io.alpha io.beta = .ok rl →
        m.forward P x llm llv b y zN lN
          = .ok (rl, m.klDivergenceZ P io.qz_m io.qz_v)) := by
  refine ⟨?_, ?_, ?_⟩
  · intro res h
    unfold VAE_ATAC.get_sample_scale at h
    split at h
    all_goals simp only [Except.map] at h
    all_goals split at h
    all_goals cases h
    · exact Or.inr (by
        rw [(ATAC_inferenceMulti_bern_none hbf hzs hls (by assumption)).1])
    · exact Or.inl (by
        rw [(ATAC_inference_bern_none hbf (by assumption)).1])
  · intro res h
    unfold VAE_ATAC.get_sample_rate at h
    split at h
    all_goals simp only [Except.map] at h
    all_goals split at h
    all_goals cases h
    · exact Or.inr (by
        rw [(ATAC_inferenceMulti_bern_none hbf hzs hls (by assumption)).2])
    · exact Or.inl (by
        rw [(ATAC_inference_bern_none hbf (by assumption)).2])
  · intro io rl hio hrl
    unfold VAE_ATAC.forward
    rw [hio]
    simp only [Except.bind]
    rw [hrl]
    simp only [Except.map, if_pos hbf]

/-- Witness for C10 at the concrete lda model on a 1-cell batch. -/
theorem C10_witness :
    mLDA.reconstruction_loss ∈ bernoulliFamily
    ∧ ([[[(0 : ℚ)]]] : List (List (List ℚ))) ≠ []
    ∧ (exOk (Sum.inl none)
        (mLDA.get_sample_scale QP x15 [0] [0] [[0]] [[0]] 1 [[[0]]] [[[0]]])
          = Sum.inl none
      ∨ exOk (Sum.inl none)
        (mLDA.get_sample_scale QP x15 [0] [0] [[0]] [[0]] 1 [[[0]]] [[[0]]])
          = Sum.inr none)
    ∧ mLDA.forward QP x15 [[0]] [[1]] [0] [0] [[0]] [[0]]
        = .ok (rlLDA, mLDA.klDivergenceZ QP ioLDA.qz_m ioLDA.qz_v) := by
  refine ⟨by simp [mLDA, bernoulliFamily], by simp, ?_, ?_⟩
  · exact (C10_bernoulli_family_none_and_no_library_kl QP mLDA
      (by simp [mLDA, bernoulliFamily]) x15 [[0]] [[1]] [0] [0] [[0]] [[0]] 1
      [[[0]]] [[[0]]] (by simp) (by simp)).1 _ rfl
  · exact (C10_bernoulli_family_none_and_no_library_kl QP mLDA
      (by simp [mLDA, bernoulliFamily]) x15 [[0]] [[1]] [0] [0] [[0]] [[0]] 1
      [[[0]]] [[[0]]] (by simp) (by simp)).2.2 ioLDA rlLDA rfl rfl


theorem ATAC_encode_v_pos (P : Prims R) (hexp : ∀ t : R, 0 < P.exp t)
    (m : VAE_ATAC R) (x zN lN : List (List R)) :
    allPos (m.encode P x zN lN).qz_v ∧ allPos (m.encode P x zN lN).ql_v := by
  constructor <;>
    (intro row hrow v hv
     simp only [VAE_ATAC.encode] at hrow
     rcases List.mem_map.mp hrow with ⟨o, ho, rfl⟩
     rcases mem_zipWith ho with ⟨xc, hxc, nc, hnc, rfl⟩
     simp only [Encoder.run] at hv
     rcases List.mem_map.mp hv with ⟨u, hu, rfl⟩
     exact hexp u)

theorem ATAC_decode_px_rate_pos (P : Prims R) (hexp : ∀ t : R, 0 < P.exp t)
    {m : VAE_ATAC R} {z library : List (List R)} {b y : List ℕ}
    {d : ATACDecodeOut R} (h : m.decode P z library b y = .ok d) :
    ∀ t, d.px_rate = some t → allPos t := by
  simp only [VAE_ATAC.decode] at h
  repeat' split at h
  all_goals cases h
  all_goals intro t ht
  all_goals cases ht
  all_goals intro row hrow v hv
  all_goals rcases List.mem_map.mp hrow with ⟨o, ho, rfl⟩
  all_goals rcases mem_zipWith ho with ⟨p, hp, bb, hbb, rfl⟩
  all_goals simp only [DecoderSCVI.run] at hv
  all_goals rcases List.mem_map.mp hv with ⟨sc, hsc, rfl⟩
  all_goals exact mul_pos (softmax_pos P hexp _ sc hsc) (hexp _)

set_option maxHeartbeats 1000000 in
/-- Claim C4: for a single-modality VAE built by VAE_ATAC.init with 5 input
features, n_batch = 0, dispersion "gene" and reconstruction loss "nb", a
forward call on a 4-cell batch of non-negative counts with valid library
prior mean/variance succeeds and returns a reconstruction-loss vector of
length 4 and a KL-divergence vector of length 4; finiteness of the entries
is expressed by the strict positivity of every likelihood rate and
dispersion argument and of every posterior and prior variance (together with
the non-negative counts, the exact domain on which the NB log-likelihood and
the normal KL are finite; the embedding's exact field has no non-finite
values). -/
theorem C4_nb_forward_shape_and_domain (P : Prims R)
    (hexp : ∀ t : R, 0 < P.exp t) (nlat : ℕ) (lv : Bool) (w : ATACWeights R)
    (m : VAE_ATAC R)
    (hm : VAE_ATAC.init 5 0 0 nlat "gene" lv "nb" none w = .ok m)
    (x llm llv : List (List R)) (b y : List ℕ) (zN lN : List (List R))
    (hx : x.length = 4) (hzN : zN.length = 4) (hlN : lN.length = 4)
    (hb : b.length = 4) (hllm : llm.length = 4) (hllv : llv.length = 4)
    (hxn : ∀ row ∈ x, ∀ v ∈ row, (0 : R) ≤ v) (hlvv : allPos llv) :
    (m.forward P x llm llv b y zN lN).isOk = true
    ∧ (∀ pr, m.forward P x llm llv b y zN lN = .ok pr →
        pr.1.length = 4 ∧ pr.2.length = 4)
    ∧ (∀ io, m.inference P x b y zN lN = .ok io →
        allPos io.qz_v ∧ allPos io.ql_v
        ∧ (∀ t, io.px_rate = some t → allPos t)
        ∧ (∀ t, io.px_r = some t → allPos t)) := by
  simp [VAE_ATAC.init] at hm
  subst hm
  refine ⟨rfl, ?_, ?_⟩
  · intro pr hpr
    simp only [VAE_ATAC.forward, VAE_ATAC.inference, VAE_ATAC.encode,
      VAE_ATAC.decode, VAE_ATAC.reconstructionLoss, VAE_ATAC.klDivergenceZ,
      klRowsConst, klRowsNN, zPriorMeanScale, Except.bind, Except.map,
      bernoulliFamily, DecoderSCVI.run, Encoder.run, Encoder.transformation] at hpr
    repeat' split at hpr
    all_goals try simp_all
    all_goals subst_vars
    all_goals try (rename_i heq; dsimp only at heq; cases heq)
    all_goals split_ifs
    all_goals simp [List.length_zipWith, List.length_map, List.length_zip,
      hx, hzN, hlN, hb, hllm, hllv]
  · intro io hio
    simp only [VAE_ATAC.inference, Except.map] at hio
    split at hio
    · cases hio
    · cases hio
      exact ⟨(ATAC_encode_v_pos P hexp _ x zN lN).1,
        (ATAC_encode_v_pos P hexp _ x zN lN).2,
        fun t ht => ATAC_decode_px_rate_pos P hexp (by assumption) t ht,
        fun t ht => ATAC_decode_px_r_pos P hexp (by assumption) t ht⟩

/-- Witness for C4 at the concrete nb model and a 4-cell, 5-gene zero batch. -/
theorem C4_witness :
    x45.length = 4
    ∧ (∀ row ∈ x45, ∀ v ∈ row, (0 : ℚ) ≤ v)
    ∧ allPos ([[1], [1], [1], [1]] : List (List ℚ))
    ∧ (mNB.forward QP x45 [[0], [0], [0], [0]] [[1], [1], [1], [1]]
        [0, 0, 0, 0] [0, 0, 0, 0] [[0], [0], [0], [0]] [[0], [0], [0], [0]]).isOk
        = true
    ∧ prC4.1.length = 4 ∧ prC4.2.length = 4
    ∧ allPos ioC4.qz_v ∧ allPos ioC4.ql_v
    ∧ ioC4.px_rate = some ioC4rate ∧ allPos ioC4rate
    ∧ ioC4.px_r = some ioC4r ∧ allPos ioC4r := by
  have h := C4_nb_forward_shape_and_domain QP (fun _ => one_pos) 1 false atacW0
    mNB rfl x45 [[0], [0], [0], [0]] [[1], [1], [1], [1]] [0, 0, 0, 0]
    [0, 0, 0, 0] [[0], [0], [0], [0]] [[0], [0], [0], [0]]
    (by decide) (by decide) (by decide) (by decide) (by decide) (by decide)
    (by norm_num [x45]) (by norm_num [allPos])
  have h3 := h.2.2 ioC4 rfl
  exact ⟨by decide, by norm_num [x45], by norm_num [allPos], h.1,
    (h.2.1 prC4 rfl).1, (h.2.1 prC4 rfl).2, h3.1, h3.2.1,
    rfl, h3.2.2.1 ioC4rate rfl, rfl, h3.2.2.2 ioC4r rfl⟩

end ScviModel
